import Mathlib

/-!
Verification development for the twitter-text validation library
(src/twitter_text/validation.py and src/twitter_text/regex.py).

A text is modelled as the list of Unicode code-unit values obtained by
iterating over a Python 2 unicode string and taking ord of each element
(so lone UTF-16 surrogate values such as 0xD800 are representable).

Regular-expression matchers are modelled as functions from a list of
code units to the ordered list of possible remainders, in the order the
backtracking engine explores them; the head of that list corresponds to
the match that re.match returns.  Case-insensitive matching (the
IGNORECASE flag) is modelled by ASCII lowercasing; the inputs examined
by the theorems below contain no cased non-ASCII characters, for which
this coincides with the lowercasing performed by the Python engine.
-/

/-- ASCII lowercasing of a code unit, modelling the effect of
re.IGNORECASE and of unicode.lower() on ASCII data. -/
def lowAsc (c : Nat) : Nat := if 65 ≤ c ∧ c ≤ 90 then c + 32 else c

/-- Membership of a codepoint in a list of inclusive ranges. -/
def inRanges (rs : List (Nat × Nat)) (c : Nat) : Bool :=
  rs.any (fun r => decide (r.1 ≤ c) && decide (c ≤ r.2))

/-- pat occurs at the start of t. -/
def isPrefixN : List Nat → List Nat → Bool
  | [], _ => true
  | _ :: _, [] => false
  | p :: ps, t :: ts => p == t && isPrefixN ps ts

/-- pat occurs at the start of t up to ASCII lowercasing (IGNORECASE). -/
def isPrefixICN : List Nat → List Nat → Bool
  | [], _ => true
  | _ :: _, [] => false
  | p :: ps, t :: ts => lowAsc p == lowAsc t && isPrefixICN ps ts

/-- pat occurs somewhere in t: the semantics of re.search applied to a
pattern that is a plain literal string of non-special characters. -/
def containsSub (pat : List Nat) : List Nat → Bool
  | [] => pat.isEmpty
  | c :: ts => isPrefixN pat (c :: ts) || containsSub pat ts

/- ----------------------------------------------------------------
   validation.py: MAX_LENGTH, DEFAULT_TCO_URL_LENGTHS, WEIGHTS
   ---------------------------------------------------------------- -/

def MAX_LENGTH : Nat := 280

/-- The options dictionary accepted by tweet_length; a missing key is
modelled as none (validation.py lines 11-15 give the defaults). -/
structure TcoOptions where
  short_url_length : Option Int
  short_url_length_https : Option Int
  characters_reserved_per_media : Option Int
deriving DecidableEq

/-- A dictionary with none of the recognized keys present. -/
def emptyOptions : TcoOptions := ⟨none, none, none⟩

/-- The loop `for key in DEFAULT_TCO_URL_LENGTHS: if not key in options:
options[key] = DEFAULT_TCO_URL_LENGTHS[key]` (validation.py lines 73-75):
each missing key is written into the caller-supplied dictionary. -/
def fillOptions (o : TcoOptions) : TcoOptions :=
  ⟨some (o.short_url_length.getD 23),
   some (o.short_url_length_https.getD 23),
   some (o.characters_reserved_per_media.getD 0)⟩

/-- WEIGHTS.ranges from validation.py lines 20-41: (start, end, weight). -/
def weightRanges : List (Nat × Nat × Nat) :=
  [(0, 4351, 100), (8192, 8205, 100), (8208, 8223, 100), (8242, 8247, 100)]

/-- The per-codepoint weight computed by the loop in tweet_length
(validation.py lines 79-87): default 200, high surrogates 0, otherwise
the last matching range of WEIGHTS.ranges wins. -/
def charWeight (c : Nat) : Nat :=
  if 0xd800 ≤ c ∧ c ≤ 0xdbff then 0
  else weightRanges.foldl (fun w r => if r.1 ≤ c ∧ c ≤ r.2.1 then r.2.2 else w) 200

/-- collective_weight: the sum of charWeight over the text
(validation.py line 88). -/
def weightedSum (t : List Nat) : Nat := t.foldl (fun a c => a + charWeight c) 0

/-- INVALID_CHARACTERS from regex.py lines 39-44, in source order.
REGEXEN invalid_control_characters is the list of these eight
characters; validation.py line 124 joins them into one string and uses
that string as a regular-expression pattern: since none of the eight is
a regex metacharacter, the pattern matches exactly the literal
eight-character sequence. -/
def INVALID_CHARACTERS : List Nat :=
  [0xFFFE, 0xFEFF, 0xFFFF, 0x202A, 0x202B, 0x202C, 0x202D, 0x202E]

/- ----------------------------------------------------------------
   Matcher combinators: a matcher maps an input to the ordered list of
   remainders after a match, in backtracking-engine order (greedy
   alternatives first).  re.match returns the head of that list.
   ---------------------------------------------------------------- -/

abbrev M := List Nat → List (List Nat)

/-- Empty pattern. -/
def mEps : M := fun l => [l]

/-- Single character from a class given as a predicate. -/
def mChar (p : Nat → Bool) : M := fun l =>
  match l with
  | [] => []
  | c :: r => if p c then [r] else []

/-- Concatenation: for each remainder of a (in order), the remainders of b. -/
def mSeq (a b : M) : M := fun l => (a l).flatMap b

/-- Alternation, left alternative explored first. -/
def mAlt (a b : M) : M := fun l => a l ++ b l

/-- Greedy option: consuming alternative explored first. -/
def mOpt (a : M) : M := fun l => a l ++ [l]

/-- Greedy star with explicit fuel; each iteration must consume at least
one character (true of every starred sub-pattern in the grammar). -/
def mStarF (a : M) : Nat → M
  | 0 => mEps
  | f + 1 => fun l =>
      ((a l).filter (fun r => r.length < l.length)).flatMap (mStarF a f) ++ [l]

/-- Greedy star (X*). -/
def mStar (a : M) : M := fun l => mStarF a l.length l

/-- X+ as X followed by X*. -/
def mPlus (a : M) : M := mSeq a (mStar a)

/-- Case-insensitive literal string. -/
def mStrIC (s : List Nat) : M := fun l =>
  if isPrefixICN s l then [l.drop s.length] else []

/-- Zero-width lookahead (?=...), given as a predicate on the remainder. -/
def mLook (f : List Nat → Bool) : M := fun l => if f l then [l] else []

/- ----------------------------------------------------------------
   Character classes of the URL grammar (regex.py lines 150-152, 178-180)
   ---------------------------------------------------------------- -/

/-- PUNCTUATION_CHARS (regex.py line 150), as codepoints. -/
def PUNCTUATION_CHARS : List Nat :=
  [33, 34, 35, 36, 37, 38, 39, 40, 41, 42, 43, 44, 45, 46, 47, 58, 59,
   60, 61, 62, 63, 64, 91, 93, 94, 95, 96, 123, 124, 125, 126]

/-- SPACE_CHARS (regex.py line 151). -/
def SPACE_CHARS : List Nat := [32, 9, 10, 11, 12, 13]

/-- CTRL_CHARS (regex.py line 152). -/
def isCtrlChar (c : Nat) : Bool := decide (c ≤ 31) || c == 127

/-- UNICODE_SPACES (regex.py lines 20-36); note range(0x9, 0xD) excludes
0xD and range(0x2000, 0x200A) excludes 0x200A, exactly as in the source. -/
def UNICODE_SPACES : List Nat :=
  [9, 10, 11, 12, 32, 133, 160, 5760, 6158, 8192, 8193, 8194, 8195, 8196,
   8197, 8198, 8199, 8200, 8201, 8232, 8233, 8239, 8287, 12288]

/-- DOMAIN_VALID_CHARS (regex.py line 180): the negated class of
punctuation, spaces, controls, invalid characters and Unicode spaces.
No member of the excluded set is a cased letter, so IGNORECASE has no
effect on this class. -/
def isDomainValid (c : Nat) : Bool :=
  !(PUNCTUATION_CHARS.contains c || SPACE_CHARS.contains c || isCtrlChar c ||
    INVALID_CHARACTERS.contains c || UNICODE_SPACES.contains c)

/-- valid_url_preceding_chars (regex.py line 178): the one-character
alternative, a negated class of A-Z (hence a-z under IGNORECASE), 0-9,
at signs, dollar, hash marks and the invalid characters. -/
def isUrlPrecedingOk (c : Nat) : Bool :=
  let lc := lowAsc c
  !((decide (97 ≤ lc) && decide (lc ≤ 122)) || (decide (48 ≤ lc) && decide (lc ≤ 57)) ||
    lc == 64 || lc == 0xFF20 || lc == 36 || lc == 35 || lc == 0xFF03 ||
    INVALID_CHARACTERS.contains lc)

/-- LATIN_ACCENTS ranges (regex.py lines 51-69). -/
def LATIN_ACCENT_RANGES : List (Nat × Nat) :=
  [(192, 214), (216, 246), (248, 255), (256, 591), (595, 596), (598, 599),
   (601, 601), (603, 603), (611, 611), (616, 616), (623, 623), (626, 626),
   (649, 649), (651, 651), (699, 699), (768, 879), (7680, 7935)]

/- ----------------------------------------------------------------
   TLD literal alternations (regex.py lines 183-185), entry codepoints in
   source order (split into chunks only to keep elaboration fast); each
   entry carries the trailing lookahead boundary requirement of one
   non-alphanumeric character or end of input.
   ---------------------------------------------------------------- -/

def gTLD_CHUNK_0 : List (List Nat) :=
  [[97, 97, 114, 112],
  [97, 98, 97, 114, 116, 104],
  [97, 98, 98],
  [97, 98, 98, 111, 116, 116],
  [97, 98, 98, 118, 105, 101],
  [97, 98, 99],
  [97, 98, 108, 101],
  [97, 98, 111, 103, 97, 100, 111],
  [97, 98, 117, 100, 104, 97, 98, 105],
  [97, 99, 97, 100, 101, 109, 121],
  [97, 99, 99, 101, 110, 116, 117, 114, 101],
  [97, 99, 99, 111, 117, 110, 116, 97, 110, 116],
  [97, 99, 99, 111, 117, 110, 116, 97, 110, 116, 115],
  [97, 99, 111],
  [97, 99, 116, 105, 118, 101],
  [97, 99, 116, 111, 114],
  [97, 100, 97, 99],
  [97, 100, 115],
  [97, 100, 117, 108, 116],
  [97, 101, 103],
  [97, 101, 116, 110, 97],
  [97, 102, 97, 109, 105, 108, 121, 99, 111, 109, 112, 97, 110, 121],
  [97, 102, 108],
  [97, 102, 114, 105, 99, 97],
  [97, 103, 97, 107, 104, 97, 110],
  [97, 103, 101, 110, 99, 121],
  [97, 105, 103],
  [97, 105, 103, 111],
  [97, 105, 114, 98, 117, 115],
  [97, 105, 114, 102, 111, 114, 99, 101],
  [97, 105, 114, 116, 101, 108],
  [97, 107, 100, 110],
  [97, 108, 102, 97, 114, 111, 109, 101, 111],
  [97, 108, 105, 98, 97, 98, 97],
  [97, 108, 105, 112, 97, 121],
  [97, 108, 108, 102, 105, 110, 97, 110, 122],
  [97, 108, 108, 115, 116, 97, 116, 101],
  [97, 108, 108, 121],
  [97, 108, 115, 97, 99, 101],
  [97, 108, 115, 116, 111, 109],
  [97, 109, 101, 114, 105, 99, 97, 110, 101, 120, 112, 114, 101, 115, 115],
  [97, 109, 101, 114, 105, 99, 97, 110, 102, 97, 109, 105, 108, 121],
  [97, 109, 101, 120],
  [97, 109, 102, 97, 109],
  [97, 109, 105, 99, 97],
  [97, 109, 115, 116, 101, 114, 100, 97, 109],
  [97, 110, 97, 108, 121, 116, 105, 99, 115],
  [97, 110, 100, 114, 111, 105, 100],
  [97, 110, 113, 117, 97, 110],
  [97, 110, 122],
  [97, 111, 108],
  [97, 112, 97, 114, 116, 109, 101, 110, 116, 115],
  [97, 112, 112],
  [97, 112, 112, 108, 101],
  [97, 113, 117, 97, 114, 101, 108, 108, 101],
  [97, 114, 97, 98],
  [97, 114, 97, 109, 99, 111],
  [97, 114, 99, 104, 105],
  [97, 114, 109, 121],
  [97, 114, 116],
  [97, 114, 116, 101],
  [97, 115, 100, 97],
  [97, 115, 115, 111, 99, 105, 97, 116, 101, 115],
  [97, 116, 104, 108, 101, 116, 97],
  [97, 116, 116, 111, 114, 110, 101, 121],
  [97, 117, 99, 116, 105, 111, 110],
  [97, 117, 100, 105],
  [97, 117, 100, 105, 98, 108, 101],
  [97, 117, 100, 105, 111],
  [97, 117, 115, 112, 111, 115, 116],
  [97, 117, 116, 104, 111, 114],
  [97, 117, 116, 111],
  [97, 117, 116, 111, 115],
  [97, 118, 105, 97, 110, 99, 97],
  [97, 119, 115],
  [97, 120, 97],
  [97, 122, 117, 114, 101],
  [98, 97, 98, 121],
  [98, 97, 105, 100, 117],
  [98, 97, 110, 97, 109, 101, 120],
  [98, 97, 110, 97, 110, 97, 114, 101, 112, 117, 98, 108, 105, 99],
  [98, 97, 110, 100],
  [98, 97, 110, 107],
  [98, 97, 114],
  [98, 97, 114, 99, 101, 108, 111, 110, 97],
  [98, 97, 114, 99, 108, 97, 121, 99, 97, 114, 100],
  [98, 97, 114, 99, 108, 97, 121, 115],
  [98, 97, 114, 101, 102, 111, 111, 116],
  [98, 97, 114, 103, 97, 105, 110, 115],
  [98, 97, 115, 101, 98, 97, 108, 108],
  [98, 97, 115, 107, 101, 116, 98, 97, 108, 108],
  [98, 97, 117, 104, 97, 117, 115],
  [98, 97, 121, 101, 114, 110],
  [98, 98, 99],
  [98, 98, 116],
  [98, 98, 118, 97],
  [98, 99, 103],
  [98, 99, 110],
  [98, 101, 97, 116, 115],
  [98, 101, 97, 117, 116, 121]]

def gTLD_CHUNK_1 : List (List Nat) :=
  [[98, 101, 101, 114],
  [98, 101, 110, 116, 108, 101, 121],
  [98, 101, 114, 108, 105, 110],
  [98, 101, 115, 116],
  [98, 101, 115, 116, 98, 117, 121],
  [98, 101, 116],
  [98, 104, 97, 114, 116, 105],
  [98, 105, 98, 108, 101],
  [98, 105, 100],
  [98, 105, 107, 101],
  [98, 105, 110, 103],
  [98, 105, 110, 103, 111],
  [98, 105, 111],
  [98, 108, 97, 99, 107],
  [98, 108, 97, 99, 107, 102, 114, 105, 100, 97, 121],
  [98, 108, 97, 110, 99, 111],
  [98, 108, 111, 99, 107, 98, 117, 115, 116, 101, 114],
  [98, 108, 111, 103],
  [98, 108, 111, 111, 109, 98, 101, 114, 103],
  [98, 108, 117, 101],
  [98, 109, 115],
  [98, 109, 119],
  [98, 110, 108],
  [98, 110, 112, 112, 97, 114, 105, 98, 97, 115],
  [98, 111, 97, 116, 115],
  [98, 111, 101, 104, 114, 105, 110, 103, 101, 114],
  [98, 111, 102, 97],
  [98, 111, 109],
  [98, 111, 110, 100],
  [98, 111, 111],
  [98, 111, 111, 107],
  [98, 111, 111, 107, 105, 110, 103],
  [98, 111, 111, 116, 115],
  [98, 111, 115, 99, 104],
  [98, 111, 115, 116, 105, 107],
  [98, 111, 115, 116, 111, 110],
  [98, 111, 116],
  [98, 111, 117, 116, 105, 113, 117, 101],
  [98, 111, 120],
  [98, 114, 97, 100, 101, 115, 99, 111],
  [98, 114, 105, 100, 103, 101, 115, 116, 111, 110, 101],
  [98, 114, 111, 97, 100, 119, 97, 121],
  [98, 114, 111, 107, 101, 114],
  [98, 114, 111, 116, 104, 101, 114],
  [98, 114, 117, 115, 115, 101, 108, 115],
  [98, 117, 100, 97, 112, 101, 115, 116],
  [98, 117, 103, 97, 116, 116, 105],
  [98, 117, 105, 108, 100],
  [98, 117, 105, 108, 100, 101, 114, 115],
  [98, 117, 115, 105, 110, 101, 115, 115],
  [98, 117, 121],
  [98, 117, 122, 122],
  [98, 122, 104],
  [99, 97, 98],
  [99, 97, 102, 101],
  [99, 97, 108],
  [99, 97, 108, 108],
  [99, 97, 108, 118, 105, 110, 107, 108, 101, 105, 110],
  [99, 97, 109],
  [99, 97, 109, 101, 114, 97],
  [99, 97, 109, 112],
  [99, 97, 110, 99, 101, 114, 114, 101, 115, 101, 97, 114, 99, 104],
  [99, 97, 110, 111, 110],
  [99, 97, 112, 101, 116, 111, 119, 110],
  [99, 97, 112, 105, 116, 97, 108],
  [99, 97, 112, 105, 116, 97, 108, 111, 110, 101],
  [99, 97, 114],
  [99, 97, 114, 97, 118, 97, 110],
  [99, 97, 114, 100, 115],
  [99, 97, 114, 101],
  [99, 97, 114, 101, 101, 114],
  [99, 97, 114, 101, 101, 114, 115],
  [99, 97, 114, 115],
  [99, 97, 114, 116, 105, 101, 114],
  [99, 97, 115, 97],
  [99, 97, 115, 101],
  [99, 97, 115, 101, 105, 104],
  [99, 97, 115, 104],
  [99, 97, 115, 105, 110, 111],
  [99, 97, 116, 101, 114, 105, 110, 103],
  [99, 97, 116, 104, 111, 108, 105, 99],
  [99, 98, 97],
  [99, 98, 110],
  [99, 98, 114, 101],
  [99, 98, 115],
  [99, 101, 98],
  [99, 101, 110, 116, 101, 114],
  [99, 101, 111],
  [99, 101, 114, 110],
  [99, 102, 97],
  [99, 102, 100],
  [99, 104, 97, 110, 101, 108],
  [99, 104, 97, 110, 110, 101, 108],
  [99, 104, 97, 114, 105, 116, 121],
  [99, 104, 97, 115, 101],
  [99, 104, 97, 116],
  [99, 104, 101, 97, 112],
  [99, 104, 105, 110, 116, 97, 105],
  [99, 104, 108, 111, 101],
  [99, 104, 114, 105, 115, 116, 109, 97, 115]]

def gTLD_CHUNK_2 : List (List Nat) :=
  [[99, 104, 114, 111, 109, 101],
  [99, 104, 114, 121, 115, 108, 101, 114],
  [99, 104, 117, 114, 99, 104],
  [99, 105, 112, 114, 105, 97, 110, 105],
  [99, 105, 114, 99, 108, 101],
  [99, 105, 115, 99, 111],
  [99, 105, 116, 97, 100, 101, 108],
  [99, 105, 116, 105],
  [99, 105, 116, 105, 99],
  [99, 105, 116, 121],
  [99, 105, 116, 121, 101, 97, 116, 115],
  [99, 108, 97, 105, 109, 115],
  [99, 108, 101, 97, 110, 105, 110, 103],
  [99, 108, 105, 99, 107],
  [99, 108, 105, 110, 105, 99],
  [99, 108, 105, 110, 105, 113, 117, 101],
  [99, 108, 111, 116, 104, 105, 110, 103],
  [99, 108, 111, 117, 100],
  [99, 108, 117, 98],
  [99, 108, 117, 98, 109, 101, 100],
  [99, 111, 97, 99, 104],
  [99, 111, 100, 101, 115],
  [99, 111, 102, 102, 101, 101],
  [99, 111, 108, 108, 101, 103, 101],
  [99, 111, 108, 111, 103, 110, 101],
  [99, 111, 109],
  [99, 111, 109, 99, 97, 115, 116],
  [99, 111, 109, 109, 98, 97, 110, 107],
  [99, 111, 109, 109, 117, 110, 105, 116, 121],
  [99, 111, 109, 112, 97, 110, 121],
  [99, 111, 109, 112, 97, 114, 101],
  [99, 111, 109, 112, 117, 116, 101, 114],
  [99, 111, 109, 115, 101, 99],
  [99, 111, 110, 100, 111, 115],
  [99, 111, 110, 115, 116, 114, 117, 99, 116, 105, 111, 110],
  [99, 111, 110, 115, 117, 108, 116, 105, 110, 103],
  [99, 111, 110, 116, 97, 99, 116],
  [99, 111, 110, 116, 114, 97, 99, 116, 111, 114, 115],
  [99, 111, 111, 107, 105, 110, 103],
  [99, 111, 111, 107, 105, 110, 103, 99, 104, 97, 110, 110, 101, 108],
  [99, 111, 111, 108],
  [99, 111, 114, 115, 105, 99, 97],
  [99, 111, 117, 110, 116, 114, 121],
  [99, 111, 117, 112, 111, 110],
  [99, 111, 117, 112, 111, 110, 115],
  [99, 111, 117, 114, 115, 101, 115],
  [99, 114, 101, 100, 105, 116],
  [99, 114, 101, 100, 105, 116, 99, 97, 114, 100],
  [99, 114, 101, 100, 105, 116, 117, 110, 105, 111, 110],
  [99, 114, 105, 99, 107, 101, 116],
  [99, 114, 111, 119, 110],
  [99, 114, 115],
  [99, 114, 117, 105, 115, 101],
  [99, 114, 117, 105, 115, 101, 115],
  [99, 115, 99],
  [99, 117, 105, 115, 105, 110, 101, 108, 108, 97],
  [99, 121, 109, 114, 117],
  [99, 121, 111, 117],
  [100, 97, 98, 117, 114],
  [100, 97, 100],
  [100, 97, 110, 99, 101],
  [100, 97, 116, 97],
  [100, 97, 116, 101],
  [100, 97, 116, 105, 110, 103],
  [100, 97, 116, 115, 117, 110],
  [100, 97, 121],
  [100, 99, 108, 107],
  [100, 100, 115],
  [100, 101, 97, 108],
  [100, 101, 97, 108, 101, 114],
  [100, 101, 97, 108, 115],
  [100, 101, 103, 114, 101, 101],
  [100, 101, 108, 105, 118, 101, 114, 121],
  [100, 101, 108, 108],
  [100, 101, 108, 111, 105, 116, 116, 101],
  [100, 101, 108, 116, 97],
  [100, 101, 109, 111, 99, 114, 97, 116],
  [100, 101, 110, 116, 97, 108],
  [100, 101, 110, 116, 105, 115, 116],
  [100, 101, 115, 105],
  [100, 101, 115, 105, 103, 110],
  [100, 101, 118],
  [100, 104, 108],
  [100, 105, 97, 109, 111, 110, 100, 115],
  [100, 105, 101, 116],
  [100, 105, 103, 105, 116, 97, 108],
  [100, 105, 114, 101, 99, 116],
  [100, 105, 114, 101, 99, 116, 111, 114, 121],
  [100, 105, 115, 99, 111, 117, 110, 116],
  [100, 105, 115, 99, 111, 118, 101, 114],
  [100, 105, 115, 104],
  [100, 105, 121],
  [100, 110, 112],
  [100, 111, 99, 115],
  [100, 111, 99, 116, 111, 114],
  [100, 111, 100, 103, 101],
  [100, 111, 103],
  [100, 111, 104, 97],
  [100, 111, 109, 97, 105, 110, 115],
  [100, 111, 111, 115, 97, 110]]

def gTLD_CHUNK_3 : List (List Nat) :=
  [[100, 111, 116],
  [100, 111, 119, 110, 108, 111, 97, 100],
  [100, 114, 105, 118, 101],
  [100, 116, 118],
  [100, 117, 98, 97, 105],
  [100, 117, 99, 107],
  [100, 117, 110, 108, 111, 112],
  [100, 117, 110, 115],
  [100, 117, 112, 111, 110, 116],
  [100, 117, 114, 98, 97, 110],
  [100, 118, 97, 103],
  [100, 118, 114],
  [101, 97, 114, 116, 104],
  [101, 97, 116],
  [101, 99, 111],
  [101, 100, 101, 107, 97],
  [101, 100, 117, 99, 97, 116, 105, 111, 110],
  [101, 109, 97, 105, 108],
  [101, 109, 101, 114, 99, 107],
  [101, 110, 101, 114, 103, 121],
  [101, 110, 103, 105, 110, 101, 101, 114],
  [101, 110, 103, 105, 110, 101, 101, 114, 105, 110, 103],
  [101, 110, 116, 101, 114, 112, 114, 105, 115, 101, 115],
  [101, 112, 111, 115, 116],
  [101, 112, 115, 111, 110],
  [101, 113, 117, 105, 112, 109, 101, 110, 116],
  [101, 114, 105, 99, 115, 115, 111, 110],
  [101, 114, 110, 105],
  [101, 115, 113],
  [101, 115, 116, 97, 116, 101],
  [101, 115, 117, 114, 97, 110, 99, 101],
  [101, 116, 105, 115, 97, 108, 97, 116],
  [101, 117, 114, 111, 118, 105, 115, 105, 111, 110],
  [101, 117, 115],
  [101, 118, 101, 110, 116, 115],
  [101, 118, 101, 114, 98, 97, 110, 107],
  [101, 120, 99, 104, 97, 110, 103, 101],
  [101, 120, 112, 101, 114, 116],
  [101, 120, 112, 111, 115, 101, 100],
  [101, 120, 112, 114, 101, 115, 115],
  [101, 120, 116, 114, 97, 115, 112, 97, 99, 101],
  [102, 97, 103, 101],
  [102, 97, 105, 108],
  [102, 97, 105, 114, 119, 105, 110, 100, 115],
  [102, 97, 105, 116, 104],
  [102, 97, 109, 105, 108, 121],
  [102, 97, 110],
  [102, 97, 110, 115],
  [102, 97, 114, 109],
  [102, 97, 114, 109, 101, 114, 115],
  [102, 97, 115, 104, 105, 111, 110],
  [102, 97, 115, 116],
  [102, 101, 100, 101, 120],
  [102, 101, 101, 100, 98, 97, 99, 107],
  [102, 101, 114, 114, 97, 114, 105],
  [102, 101, 114, 114, 101, 114, 111],
  [102, 105, 97, 116],
  [102, 105, 100, 101, 108, 105, 116, 121],
  [102, 105, 100, 111],
  [102, 105, 108, 109],
  [102, 105, 110, 97, 108],
  [102, 105, 110, 97, 110, 99, 101],
  [102, 105, 110, 97, 110, 99, 105, 97, 108],
  [102, 105, 114, 101],
  [102, 105, 114, 101, 115, 116, 111, 110, 101],
  [102, 105, 114, 109, 100, 97, 108, 101],
  [102, 105, 115, 104],
  [102, 105, 115, 104, 105, 110, 103],
  [102, 105, 116],
  [102, 105, 116, 110, 101, 115, 115],
  [102, 108, 105, 99, 107, 114],
  [102, 108, 105, 103, 104, 116, 115],
  [102, 108, 105, 114],
  [102, 108, 111, 114, 105, 115, 116],
  [102, 108, 111, 119, 101, 114, 115],
  [102, 108, 115, 109, 105, 100, 116, 104],
  [102, 108, 121],
  [102, 111, 111],
  [102, 111, 111, 100],
  [102, 111, 111, 100, 110, 101, 116, 119, 111, 114, 107],
  [102, 111, 111, 116, 98, 97, 108, 108],
  [102, 111, 114, 100],
  [102, 111, 114, 101, 120],
  [102, 111, 114, 115, 97, 108, 101],
  [102, 111, 114, 117, 109],
  [102, 111, 117, 110, 100, 97, 116, 105, 111, 110],
  [102, 111, 120],
  [102, 114, 101, 101],
  [102, 114, 101, 115, 101, 110, 105, 117, 115],
  [102, 114, 108],
  [102, 114, 111, 103, 97, 110, 115],
  [102, 114, 111, 110, 116, 100, 111, 111, 114],
  [102, 114, 111, 110, 116, 105, 101, 114],
  [102, 116, 114],
  [102, 117, 106, 105, 116, 115, 117],
  [102, 117, 106, 105, 120, 101, 114, 111, 120],
  [102, 117, 110],
  [102, 117, 110, 100],
  [102, 117, 114, 110, 105, 116, 117, 114, 101],
  [102, 117, 116, 98, 111, 108]]

def gTLD_CHUNK_4 : List (List Nat) :=
  [[102, 121, 105],
  [103, 97, 108],
  [103, 97, 108, 108, 101, 114, 121],
  [103, 97, 108, 108, 111],
  [103, 97, 108, 108, 117, 112],
  [103, 97, 109, 101],
  [103, 97, 109, 101, 115],
  [103, 97, 112],
  [103, 97, 114, 100, 101, 110],
  [103, 98, 105, 122],
  [103, 100, 110],
  [103, 101, 97],
  [103, 101, 110, 116],
  [103, 101, 110, 116, 105, 110, 103],
  [103, 101, 111, 114, 103, 101],
  [103, 103, 101, 101],
  [103, 105, 102, 116],
  [103, 105, 102, 116, 115],
  [103, 105, 118, 101, 115],
  [103, 105, 118, 105, 110, 103],
  [103, 108, 97, 100, 101],
  [103, 108, 97, 115, 115],
  [103, 108, 101],
  [103, 108, 111, 98, 97, 108],
  [103, 108, 111, 98, 111],
  [103, 109, 97, 105, 108],
  [103, 109, 98, 104],
  [103, 109, 111],
  [103, 109, 120],
  [103, 111, 100, 97, 100, 100, 121],
  [103, 111, 108, 100],
  [103, 111, 108, 100, 112, 111, 105, 110, 116],
  [103, 111, 108, 102],
  [103, 111, 111],
  [103, 111, 111, 100, 104, 97, 110, 100, 115],
  [103, 111, 111, 100, 121, 101, 97, 114],
  [103, 111, 111, 103],
  [103, 111, 111, 103, 108, 101],
  [103, 111, 112],
  [103, 111, 116],
  [103, 114, 97, 105, 110, 103, 101, 114],
  [103, 114, 97, 112, 104, 105, 99, 115],
  [103, 114, 97, 116, 105, 115],
  [103, 114, 101, 101, 110],
  [103, 114, 105, 112, 101],
  [103, 114, 111, 99, 101, 114, 121],
  [103, 114, 111, 117, 112],
  [103, 117, 97, 114, 100, 105, 97, 110],
  [103, 117, 99, 99, 105],
  [103, 117, 103, 101],
  [103, 117, 105, 100, 101],
  [103, 117, 105, 116, 97, 114, 115],
  [103, 117, 114, 117],
  [104, 97, 105, 114],
  [104, 97, 109, 98, 117, 114, 103],
  [104, 97, 110, 103, 111, 117, 116],
  [104, 97, 117, 115],
  [104, 98, 111],
  [104, 100, 102, 99],
  [104, 100, 102, 99, 98, 97, 110, 107],
  [104, 101, 97, 108, 116, 104],
  [104, 101, 97, 108, 116, 104, 99, 97, 114, 101],
  [104, 101, 108, 112],
  [104, 101, 108, 115, 105, 110, 107, 105],
  [104, 101, 114, 101],
  [104, 101, 114, 109, 101, 115],
  [104, 103, 116, 118],
  [104, 105, 112, 104, 111, 112],
  [104, 105, 115, 97, 109, 105, 116, 115, 117],
  [104, 105, 116, 97, 99, 104, 105],
  [104, 105, 118],
  [104, 107, 116],
  [104, 111, 99, 107, 101, 121],
  [104, 111, 108, 100, 105, 110, 103, 115],
  [104, 111, 108, 105, 100, 97, 121],
  [104, 111, 109, 101, 100, 101, 112, 111, 116],
  [104, 111, 109, 101, 103, 111, 111, 100, 115],
  [104, 111, 109, 101, 115],
  [104, 111, 109, 101, 115, 101, 110, 115, 101],
  [104, 111, 110, 100, 97],
  [104, 111, 110, 101, 121, 119, 101, 108, 108],
  [104, 111, 114, 115, 101],
  [104, 111, 115, 112, 105, 116, 97, 108],
  [104, 111, 115, 116],
  [104, 111, 115, 116, 105, 110, 103],
  [104, 111, 116],
  [104, 111, 116, 101, 108, 101, 115],
  [104, 111, 116, 101, 108, 115],
  [104, 111, 116, 109, 97, 105, 108],
  [104, 111, 117, 115, 101],
  [104, 111, 119],
  [104, 115, 98, 99],
  [104, 116, 99],
  [104, 117, 103, 104, 101, 115],
  [104, 121, 97, 116, 116],
  [104, 121, 117, 110, 100, 97, 105],
  [105, 98, 109],
  [105, 99, 98, 99],
  [105, 99, 101],
  [105, 99, 117]]

def gTLD_CHUNK_5 : List (List Nat) :=
  [[105, 101, 101, 101],
  [105, 102, 109],
  [105, 105, 110, 101, 116],
  [105, 107, 97, 110, 111],
  [105, 109, 97, 109, 97, 116],
  [105, 109, 100, 98],
  [105, 109, 109, 111],
  [105, 109, 109, 111, 98, 105, 108, 105, 101, 110],
  [105, 110, 100, 117, 115, 116, 114, 105, 101, 115],
  [105, 110, 102, 105, 110, 105, 116, 105],
  [105, 110, 102, 111],
  [105, 110, 103],
  [105, 110, 107],
  [105, 110, 115, 116, 105, 116, 117, 116, 101],
  [105, 110, 115, 117, 114, 97, 110, 99, 101],
  [105, 110, 115, 117, 114, 101],
  [105, 110, 116, 101, 108],
  [105, 110, 116, 101, 114, 110, 97, 116, 105, 111, 110, 97, 108],
  [105, 110, 116, 117, 105, 116],
  [105, 110, 118, 101, 115, 116, 109, 101, 110, 116, 115],
  [105, 112, 105, 114, 97, 110, 103, 97],
  [105, 114, 105, 115, 104],
  [105, 115, 101, 108, 101, 99, 116],
  [105, 115, 109, 97, 105, 108, 105],
  [105, 115, 116],
  [105, 115, 116, 97, 110, 98, 117, 108],
  [105, 116, 97, 117],
  [105, 116, 118],
  [105, 118, 101, 99, 111],
  [105, 119, 99],
  [106, 97, 103, 117, 97, 114],
  [106, 97, 118, 97],
  [106, 99, 98],
  [106, 99, 112],
  [106, 101, 101, 112],
  [106, 101, 116, 122, 116],
  [106, 101, 119, 101, 108, 114, 121],
  [106, 105, 111],
  [106, 108, 99],
  [106, 108, 108],
  [106, 109, 112],
  [106, 110, 106],
  [106, 111, 98, 117, 114, 103],
  [106, 111, 116],
  [106, 111, 121],
  [106, 112, 109, 111, 114, 103, 97, 110],
  [106, 112, 114, 115],
  [106, 117, 101, 103, 111, 115],
  [106, 117, 110, 105, 112, 101, 114],
  [107, 97, 117, 102, 101, 110],
  [107, 100, 100, 105],
  [107, 101, 114, 114, 121, 104, 111, 116, 101, 108, 115],
  [107, 101, 114, 114, 121, 108, 111, 103, 105, 115, 116, 105, 99, 115],
  [107, 101, 114, 114, 121, 112, 114, 111, 112, 101, 114, 116, 105, 101, 115],
  [107, 102, 104],
  [107, 105, 97],
  [107, 105, 109],
  [107, 105, 110, 100, 101, 114],
  [107, 105, 110, 100, 108, 101],
  [107, 105, 116, 99, 104, 101, 110],
  [107, 105, 119, 105],
  [107, 111, 101, 108, 110],
  [107, 111, 109, 97, 116, 115, 117],
  [107, 111, 115, 104, 101, 114],
  [107, 112, 109, 103],
  [107, 112, 110],
  [107, 114, 100],
  [107, 114, 101, 100],
  [107, 117, 111, 107, 103, 114, 111, 117, 112],
  [107, 121, 111, 116, 111],
  [108, 97, 99, 97, 105, 120, 97],
  [108, 97, 100, 98, 114, 111, 107, 101, 115],
  [108, 97, 109, 98, 111, 114, 103, 104, 105, 110, 105],
  [108, 97, 109, 101, 114],
  [108, 97, 110, 99, 97, 115, 116, 101, 114],
  [108, 97, 110, 99, 105, 97],
  [108, 97, 110, 99, 111, 109, 101],
  [108, 97, 110, 100],
  [108, 97, 110, 100, 114, 111, 118, 101, 114],
  [108, 97, 110, 120, 101, 115, 115],
  [108, 97, 115, 97, 108, 108, 101],
  [108, 97, 116],
  [108, 97, 116, 105, 110, 111],
  [108, 97, 116, 114, 111, 98, 101],
  [108, 97, 119],
  [108, 97, 119, 121, 101, 114],
  [108, 100, 115],
  [108, 101, 97, 115, 101],
  [108, 101, 99, 108, 101, 114, 99],
  [108, 101, 102, 114, 97, 107],
  [108, 101, 103, 97, 108],
  [108, 101, 103, 111],
  [108, 101, 120, 117, 115],
  [108, 103, 98, 116],
  [108, 105, 97, 105, 115, 111, 110],
  [108, 105, 100, 108],
  [108, 105, 102, 101],
  [108, 105, 102, 101, 105, 110, 115, 117, 114, 97, 110, 99, 101],
  [108, 105, 102, 101, 115, 116, 121, 108, 101],
  [108, 105, 103, 104, 116, 105, 110, 103]]

def gTLD_CHUNK_6 : List (List Nat) :=
  [[108, 105, 107, 101],
  [108, 105, 108, 108, 121],
  [108, 105, 109, 105, 116, 101, 100],
  [108, 105, 109, 111],
  [108, 105, 110, 99, 111, 108, 110],
  [108, 105, 110, 100, 101],
  [108, 105, 110, 107],
  [108, 105, 112, 115, 121],
  [108, 105, 118, 101],
  [108, 105, 118, 105, 110, 103],
  [108, 105, 120, 105, 108],
  [108, 108, 99],
  [108, 111, 97, 110],
  [108, 111, 97, 110, 115],
  [108, 111, 99, 107, 101, 114],
  [108, 111, 99, 117, 115],
  [108, 111, 102, 116],
  [108, 111, 108],
  [108, 111, 110, 100, 111, 110],
  [108, 111, 116, 116, 101],
  [108, 111, 116, 116, 111],
  [108, 111, 118, 101],
  [108, 112, 108],
  [108, 112, 108, 102, 105, 110, 97, 110, 99, 105, 97, 108],
  [108, 116, 100],
  [108, 116, 100, 97],
  [108, 117, 110, 100, 98, 101, 99, 107],
  [108, 117, 112, 105, 110],
  [108, 117, 120, 101],
  [108, 117, 120, 117, 114, 121],
  [109, 97, 99, 121, 115],
  [109, 97, 100, 114, 105, 100],
  [109, 97, 105, 102],
  [109, 97, 105, 115, 111, 110],
  [109, 97, 107, 101, 117, 112],
  [109, 97, 110],
  [109, 97, 110, 97, 103, 101, 109, 101, 110, 116],
  [109, 97, 110, 103, 111],
  [109, 97, 112],
  [109, 97, 114, 107, 101, 116],
  [109, 97, 114, 107, 101, 116, 105, 110, 103],
  [109, 97, 114, 107, 101, 116, 115],
  [109, 97, 114, 114, 105, 111, 116, 116],
  [109, 97, 114, 115, 104, 97, 108, 108, 115],
  [109, 97, 115, 101, 114, 97, 116, 105],
  [109, 97, 116, 116, 101, 108],
  [109, 98, 97],
  [109, 99, 100],
  [109, 99, 100, 111, 110, 97, 108, 100, 115],
  [109, 99, 107, 105, 110, 115, 101, 121],
  [109, 101, 100],
  [109, 101, 100, 105, 97],
  [109, 101, 101, 116],
  [109, 101, 108, 98, 111, 117, 114, 110, 101],
  [109, 101, 109, 101],
  [109, 101, 109, 111, 114, 105, 97, 108],
  [109, 101, 110],
  [109, 101, 110, 117],
  [109, 101, 111],
  [109, 101, 114, 99, 107, 109, 115, 100],
  [109, 101, 116, 108, 105, 102, 101],
  [109, 105, 97, 109, 105],
  [109, 105, 99, 114, 111, 115, 111, 102, 116],
  [109, 105, 110, 105],
  [109, 105, 110, 116],
  [109, 105, 116],
  [109, 105, 116, 115, 117, 98, 105, 115, 104, 105],
  [109, 108, 98],
  [109, 108, 115],
  [109, 109, 97],
  [109, 111, 98, 105],
  [109, 111, 98, 105, 108, 101],
  [109, 111, 98, 105, 108, 121],
  [109, 111, 100, 97],
  [109, 111, 101],
  [109, 111, 105],
  [109, 111, 109],
  [109, 111, 110, 97, 115, 104],
  [109, 111, 110, 101, 121],
  [109, 111, 110, 115, 116, 101, 114],
  [109, 111, 110, 116, 98, 108, 97, 110, 99],
  [109, 111, 112, 97, 114],
  [109, 111, 114, 109, 111, 110],
  [109, 111, 114, 116, 103, 97, 103, 101],
  [109, 111, 115, 99, 111, 119],
  [109, 111, 116, 111],
  [109, 111, 116, 111, 114, 99, 121, 99, 108, 101, 115],
  [109, 111, 118],
  [109, 111, 118, 105, 101],
  [109, 111, 118, 105, 115, 116, 97, 114],
  [109, 115, 100],
  [109, 116, 110],
  [109, 116, 112, 99],
  [109, 116, 114],
  [109, 117, 116, 117, 97, 108],
  [109, 117, 116, 117, 101, 108, 108, 101],
  [110, 97, 98],
  [110, 97, 100, 101, 120],
  [110, 97, 103, 111, 121, 97],
  [110, 97, 116, 105, 111, 110, 119, 105, 100, 101]]

def gTLD_CHUNK_7 : List (List Nat) :=
  [[110, 97, 116, 117, 114, 97],
  [110, 97, 118, 121],
  [110, 98, 97],
  [110, 101, 99],
  [110, 101, 116],
  [110, 101, 116, 98, 97, 110, 107],
  [110, 101, 116, 102, 108, 105, 120],
  [110, 101, 116, 119, 111, 114, 107],
  [110, 101, 117, 115, 116, 97, 114],
  [110, 101, 119],
  [110, 101, 119, 104, 111, 108, 108, 97, 110, 100],
  [110, 101, 119, 115],
  [110, 101, 120, 116],
  [110, 101, 120, 116, 100, 105, 114, 101, 99, 116],
  [110, 101, 120, 117, 115],
  [110, 102, 108],
  [110, 103, 111],
  [110, 104, 107],
  [110, 105, 99, 111],
  [110, 105, 107, 101],
  [110, 105, 107, 111, 110],
  [110, 105, 110, 106, 97],
  [110, 105, 115, 115, 97, 110],
  [110, 105, 115, 115, 97, 121],
  [110, 111, 107, 105, 97],
  [110, 111, 114, 116, 104, 119, 101, 115, 116, 101, 114, 110, 109, 117, 116, 117, 97, 108],
  [110, 111, 114, 116, 111, 110],
  [110, 111, 119],
  [110, 111, 119, 114, 117, 122],
  [110, 111, 119, 116, 118],
  [110, 114, 97],
  [110, 114, 119],
  [110, 116, 116],
  [110, 121, 99],
  [111, 98, 105],
  [111, 98, 115, 101, 114, 118, 101, 114],
  [111, 102, 102],
  [111, 102, 102, 105, 99, 101],
  [111, 107, 105, 110, 97, 119, 97],
  [111, 108, 97, 121, 97, 110],
  [111, 108, 97, 121, 97, 110, 103, 114, 111, 117, 112],
  [111, 108, 100, 110, 97, 118, 121],
  [111, 108, 108, 111],
  [111, 109, 101, 103, 97],
  [111, 110, 101],
  [111, 110, 103],
  [111, 110, 108],
  [111, 110, 108, 105, 110, 101],
  [111, 110, 121, 111, 117, 114, 115, 105, 100, 101],
  [111, 111, 111],
  [111, 112, 101, 110],
  [111, 114, 97, 99, 108, 101],
  [111, 114, 97, 110, 103, 101],
  [111, 114, 103],
  [111, 114, 103, 97, 110, 105, 99],
  [111, 114, 105, 101, 110, 116, 101, 120, 112, 114, 101, 115, 115],
  [111, 114, 105, 103, 105, 110, 115],
  [111, 115, 97, 107, 97],
  [111, 116, 115, 117, 107, 97],
  [111, 116, 116],
  [111, 118, 104],
  [112, 97, 103, 101],
  [112, 97, 109, 112, 101, 114, 101, 100, 99, 104, 101, 102],
  [112, 97, 110, 97, 115, 111, 110, 105, 99],
  [112, 97, 110, 101, 114, 97, 105],
  [112, 97, 114, 105, 115],
  [112, 97, 114, 115],
  [112, 97, 114, 116, 110, 101, 114, 115],
  [112, 97, 114, 116, 115],
  [112, 97, 114, 116, 121],
  [112, 97, 115, 115, 97, 103, 101, 110, 115],
  [112, 97, 121],
  [112, 99, 99, 119],
  [112, 101, 116],
  [112, 102, 105, 122, 101, 114],
  [112, 104, 97, 114, 109, 97, 99, 121],
  [112, 104, 100],
  [112, 104, 105, 108, 105, 112, 115],
  [112, 104, 111, 110, 101],
  [112, 104, 111, 116, 111],
  [112, 104, 111, 116, 111, 103, 114, 97, 112, 104, 121],
  [112, 104, 111, 116, 111, 115],
  [112, 104, 121, 115, 105, 111],
  [112, 105, 97, 103, 101, 116],
  [112, 105, 99, 115],
  [112, 105, 99, 116, 101, 116],
  [112, 105, 99, 116, 117, 114, 101, 115],
  [112, 105, 100],
  [112, 105, 110],
  [112, 105, 110, 103],
  [112, 105, 110, 107],
  [112, 105, 111, 110, 101, 101, 114],
  [112, 105, 122, 122, 97],
  [112, 108, 97, 99, 101],
  [112, 108, 97, 121],
  [112, 108, 97, 121, 115, 116, 97, 116, 105, 111, 110],
  [112, 108, 117, 109, 98, 105, 110, 103],
  [112, 108, 117, 115],
  [112, 110, 99],
  [112, 111, 104, 108]]

def gTLD_CHUNK_8 : List (List Nat) :=
  [[112, 111, 107, 101, 114],
  [112, 111, 108, 105, 116, 105, 101],
  [112, 111, 114, 110],
  [112, 114, 97, 109, 101, 114, 105, 99, 97],
  [112, 114, 97, 120, 105],
  [112, 114, 101, 115, 115],
  [112, 114, 105, 109, 101],
  [112, 114, 111, 100],
  [112, 114, 111, 100, 117, 99, 116, 105, 111, 110, 115],
  [112, 114, 111, 102],
  [112, 114, 111, 103, 114, 101, 115, 115, 105, 118, 101],
  [112, 114, 111, 109, 111],
  [112, 114, 111, 112, 101, 114, 116, 105, 101, 115],
  [112, 114, 111, 112, 101, 114, 116, 121],
  [112, 114, 111, 116, 101, 99, 116, 105, 111, 110],
  [112, 114, 117],
  [112, 114, 117, 100, 101, 110, 116, 105, 97, 108],
  [112, 117, 98],
  [112, 119, 99],
  [113, 112, 111, 110],
  [113, 117, 101, 98, 101, 99],
  [113, 117, 101, 115, 116],
  [113, 118, 99],
  [114, 97, 99, 105, 110, 103],
  [114, 97, 100, 105, 111],
  [114, 97, 105, 100],
  [114, 101, 97, 100],
  [114, 101, 97, 108, 101, 115, 116, 97, 116, 101],
  [114, 101, 97, 108, 116, 111, 114],
  [114, 101, 97, 108, 116, 121],
  [114, 101, 99, 105, 112, 101, 115],
  [114, 101, 100],
  [114, 101, 100, 115, 116, 111, 110, 101],
  [114, 101, 100, 117, 109, 98, 114, 101, 108, 108, 97],
  [114, 101, 104, 97, 98],
  [114, 101, 105, 115, 101],
  [114, 101, 105, 115, 101, 110],
  [114, 101, 105, 116],
  [114, 101, 108, 105, 97, 110, 99, 101],
  [114, 101, 110],
  [114, 101, 110, 116],
  [114, 101, 110, 116, 97, 108, 115],
  [114, 101, 112, 97, 105, 114],
  [114, 101, 112, 111, 114, 116],
  [114, 101, 112, 117, 98, 108, 105, 99, 97, 110],
  [114, 101, 115, 116],
  [114, 101, 115, 116, 97, 117, 114, 97, 110, 116],
  [114, 101, 118, 105, 101, 119],
  [114, 101, 118, 105, 101, 119, 115],
  [114, 101, 120, 114, 111, 116, 104],
  [114, 105, 99, 104],
  [114, 105, 99, 104, 97, 114, 100, 108, 105],
  [114, 105, 99, 111, 104],
  [114, 105, 103, 104, 116, 97, 116, 104, 111, 109, 101],
  [114, 105, 108],
  [114, 105, 111],
  [114, 105, 112],
  [114, 109, 105, 116],
  [114, 111, 99, 104, 101, 114],
  [114, 111, 99, 107, 115],
  [114, 111, 100, 101, 111],
  [114, 111, 103, 101, 114, 115],
  [114, 111, 111, 109],
  [114, 115, 118, 112],
  [114, 117, 103, 98, 121],
  [114, 117, 104, 114],
  [114, 117, 110],
  [114, 119, 101],
  [114, 121, 117, 107, 121, 117],
  [115, 97, 97, 114, 108, 97, 110, 100],
  [115, 97, 102, 101],
  [115, 97, 102, 101, 116, 121],
  [115, 97, 107, 117, 114, 97],
  [115, 97, 108, 101],
  [115, 97, 108, 111, 110],
  [115, 97, 109, 115, 99, 108, 117, 98],
  [115, 97, 109, 115, 117, 110, 103],
  [115, 97, 110, 100, 118, 105, 107],
  [115, 97, 110, 100, 118, 105, 107, 99, 111, 114, 111, 109, 97, 110, 116],
  [115, 97, 110, 111, 102, 105],
  [115, 97, 112],
  [115, 97, 112, 111],
  [115, 97, 114, 108],
  [115, 97, 115],
  [115, 97, 118, 101],
  [115, 97, 120, 111],
  [115, 98, 105],
  [115, 98, 115],
  [115, 99, 97],
  [115, 99, 98],
  [115, 99, 104, 97, 101, 102, 102, 108, 101, 114],
  [115, 99, 104, 109, 105, 100, 116],
  [115, 99, 104, 111, 108, 97, 114, 115, 104, 105, 112, 115],
  [115, 99, 104, 111, 111, 108],
  [115, 99, 104, 117, 108, 101],
  [115, 99, 104, 119, 97, 114, 122],
  [115, 99, 105, 101, 110, 99, 101],
  [115, 99, 106, 111, 104, 110, 115, 111, 110],
  [115, 99, 111, 114],
  [115, 99, 111, 116]]

def gTLD_CHUNK_9 : List (List Nat) :=
  [[115, 101, 97, 114, 99, 104],
  [115, 101, 97, 116],
  [115, 101, 99, 117, 114, 101],
  [115, 101, 99, 117, 114, 105, 116, 121],
  [115, 101, 101, 107],
  [115, 101, 108, 101, 99, 116],
  [115, 101, 110, 101, 114],
  [115, 101, 114, 118, 105, 99, 101, 115],
  [115, 101, 115],
  [115, 101, 118, 101, 110],
  [115, 101, 119],
  [115, 101, 120],
  [115, 101, 120, 121],
  [115, 102, 114],
  [115, 104, 97, 110, 103, 114, 105, 108, 97],
  [115, 104, 97, 114, 112],
  [115, 104, 97, 119],
  [115, 104, 101, 108, 108],
  [115, 104, 105, 97],
  [115, 104, 105, 107, 115, 104, 97],
  [115, 104, 111, 101, 115],
  [115, 104, 111, 112],
  [115, 104, 111, 112, 112, 105, 110, 103],
  [115, 104, 111, 117, 106, 105],
  [115, 104, 111, 119],
  [115, 104, 111, 119, 116, 105, 109, 101],
  [115, 104, 114, 105, 114, 97, 109],
  [115, 105, 108, 107],
  [115, 105, 110, 97],
  [115, 105, 110, 103, 108, 101, 115],
  [115, 105, 116, 101],
  [115, 107, 105],
  [115, 107, 105, 110],
  [115, 107, 121],
  [115, 107, 121, 112, 101],
  [115, 108, 105, 110, 103],
  [115, 109, 97, 114, 116],
  [115, 109, 105, 108, 101],
  [115, 110, 99, 102],
  [115, 111, 99, 99, 101, 114],
  [115, 111, 99, 105, 97, 108],
  [115, 111, 102, 116, 98, 97, 110, 107],
  [115, 111, 102, 116, 119, 97, 114, 101],
  [115, 111, 104, 117],
  [115, 111, 108, 97, 114],
  [115, 111, 108, 117, 116, 105, 111, 110, 115],
  [115, 111, 110, 103],
  [115, 111, 110, 121],
  [115, 111, 121],
  [115, 112, 97, 99, 101],
  [115, 112, 105, 101, 103, 101, 108],
  [115, 112, 111, 114, 116],
  [115, 112, 111, 116],
  [115, 112, 114, 101, 97, 100, 98, 101, 116, 116, 105, 110, 103],
  [115, 114, 108],
  [115, 114, 116],
  [115, 116, 97, 100, 97],
  [115, 116, 97, 112, 108, 101, 115],
  [115, 116, 97, 114],
  [115, 116, 97, 114, 104, 117, 98],
  [115, 116, 97, 116, 101, 98, 97, 110, 107],
  [115, 116, 97, 116, 101, 102, 97, 114, 109],
  [115, 116, 97, 116, 111, 105, 108],
  [115, 116, 99],
  [115, 116, 99, 103, 114, 111, 117, 112],
  [115, 116, 111, 99, 107, 104, 111, 108, 109],
  [115, 116, 111, 114, 97, 103, 101],
  [115, 116, 111, 114, 101],
  [115, 116, 114, 101, 97, 109],
  [115, 116, 117, 100, 105, 111],
  [115, 116, 117, 100, 121],
  [115, 116, 121, 108, 101],
  [115, 117, 99, 107, 115],
  [115, 117, 112, 112, 108, 105, 101, 115],
  [115, 117, 112, 112, 108, 121],
  [115, 117, 112, 112, 111, 114, 116],
  [115, 117, 114, 102],
  [115, 117, 114, 103, 101, 114, 121],
  [115, 117, 122, 117, 107, 105],
  [115, 119, 97, 116, 99, 104],
  [115, 119, 105, 102, 116, 99, 111, 118, 101, 114],
  [115, 119, 105, 115, 115],
  [115, 121, 100, 110, 101, 121],
  [115, 121, 109, 97, 110, 116, 101, 99],
  [115, 121, 115, 116, 101, 109, 115],
  [116, 97, 98],
  [116, 97, 105, 112, 101, 105],
  [116, 97, 108, 107],
  [116, 97, 111, 98, 97, 111],
  [116, 97, 114, 103, 101, 116],
  [116, 97, 116, 97, 109, 111, 116, 111, 114, 115],
  [116, 97, 116, 97, 114],
  [116, 97, 116, 116, 111, 111],
  [116, 97, 120],
  [116, 97, 120, 105],
  [116, 99, 105],
  [116, 100, 107],
  [116, 101, 97, 109],
  [116, 101, 99, 104],
  [116, 101, 99, 104, 110, 111, 108, 111, 103, 121]]

def gTLD_CHUNK_10 : List (List Nat) :=
  [[116, 101, 108, 101, 99, 105, 116, 121],
  [116, 101, 108, 101, 102, 111, 110, 105, 99, 97],
  [116, 101, 109, 97, 115, 101, 107],
  [116, 101, 110, 110, 105, 115],
  [116, 101, 118, 97],
  [116, 104, 100],
  [116, 104, 101, 97, 116, 101, 114],
  [116, 104, 101, 97, 116, 114, 101],
  [116, 105, 97, 97],
  [116, 105, 99, 107, 101, 116, 115],
  [116, 105, 101, 110, 100, 97],
  [116, 105, 102, 102, 97, 110, 121],
  [116, 105, 112, 115],
  [116, 105, 114, 101, 115],
  [116, 105, 114, 111, 108],
  [116, 106, 109, 97, 120, 120],
  [116, 106, 120],
  [116, 107, 109, 97, 120, 120],
  [116, 109, 97, 108, 108],
  [116, 111, 100, 97, 121],
  [116, 111, 107, 121, 111],
  [116, 111, 111, 108, 115],
  [116, 111, 112],
  [116, 111, 114, 97, 121],
  [116, 111, 115, 104, 105, 98, 97],
  [116, 111, 116, 97, 108],
  [116, 111, 117, 114, 115],
  [116, 111, 119, 110],
  [116, 111, 121, 111, 116, 97],
  [116, 111, 121, 115],
  [116, 114, 97, 100, 101],
  [116, 114, 97, 100, 105, 110, 103],
  [116, 114, 97, 105, 110, 105, 110, 103],
  [116, 114, 97, 118, 101, 108, 99, 104, 97, 110, 110, 101, 108],
  [116, 114, 97, 118, 101, 108, 101, 114, 115],
  [116, 114, 97, 118, 101, 108, 101, 114, 115, 105, 110, 115, 117, 114, 97, 110, 99, 101],
  [116, 114, 117, 115, 116],
  [116, 114, 118],
  [116, 117, 98, 101],
  [116, 117, 105],
  [116, 117, 110, 101, 115],
  [116, 117, 115, 104, 117],
  [116, 118, 115],
  [117, 98, 97, 110, 107],
  [117, 98, 115],
  [117, 99, 111, 110, 110, 101, 99, 116],
  [117, 110, 105, 99, 111, 109],
  [117, 110, 105, 118, 101, 114, 115, 105, 116, 121],
  [117, 110, 111],
  [117, 111, 108],
  [117, 112, 115],
  [118, 97, 99, 97, 116, 105, 111, 110, 115],
  [118, 97, 110, 97],
  [118, 97, 110, 103, 117, 97, 114, 100],
  [118, 101, 103, 97, 115],
  [118, 101, 110, 116, 117, 114, 101, 115],
  [118, 101, 114, 105, 115, 105, 103, 110],
  [118, 101, 114, 115, 105, 99, 104, 101, 114, 117, 110, 103],
  [118, 101, 116],
  [118, 105, 97, 106, 101, 115],
  [118, 105, 100, 101, 111],
  [118, 105, 103],
  [118, 105, 107, 105, 110, 103],
  [118, 105, 108, 108, 97, 115],
  [118, 105, 110],
  [118, 105, 112],
  [118, 105, 114, 103, 105, 110],
  [118, 105, 115, 97],
  [118, 105, 115, 105, 111, 110],
  [118, 105, 115, 116, 97],
  [118, 105, 115, 116, 97, 112, 114, 105, 110, 116],
  [118, 105, 118, 97],
  [118, 105, 118, 111],
  [118, 108, 97, 97, 110, 100, 101, 114, 101, 110],
  [118, 111, 100, 107, 97],
  [118, 111, 108, 107, 115, 119, 97, 103, 101, 110],
  [118, 111, 108, 118, 111],
  [118, 111, 116, 101],
  [118, 111, 116, 105, 110, 103],
  [118, 111, 116, 111],
  [118, 111, 121, 97, 103, 101],
  [118, 117, 101, 108, 111, 115],
  [119, 97, 108, 101, 115],
  [119, 97, 108, 109, 97, 114, 116],
  [119, 97, 108, 116, 101, 114],
  [119, 97, 110, 103],
  [119, 97, 110, 103, 103, 111, 117],
  [119, 97, 114, 109, 97, 110],
  [119, 97, 116, 99, 104],
  [119, 97, 116, 99, 104, 101, 115],
  [119, 101, 97, 116, 104, 101, 114],
  [119, 101, 97, 116, 104, 101, 114, 99, 104, 97, 110, 110, 101, 108],
  [119, 101, 98, 99, 97, 109],
  [119, 101, 98, 101, 114],
  [119, 101, 98, 115, 105, 116, 101],
  [119, 101, 100],
  [119, 101, 100, 100, 105, 110, 103],
  [119, 101, 105, 98, 111],
  [119, 101, 105, 114],
  [119, 104, 111, 115, 119, 104, 111]]

def gTLD_CHUNK_11 : List (List Nat) :=
  [[119, 105, 101, 110],
  [119, 105, 107, 105],
  [119, 105, 108, 108, 105, 97, 109, 104, 105, 108, 108],
  [119, 105, 110],
  [119, 105, 110, 100, 111, 119, 115],
  [119, 105, 110, 101],
  [119, 105, 110, 110, 101, 114, 115],
  [119, 109, 101],
  [119, 111, 108, 116, 101, 114, 115, 107, 108, 117, 119, 101, 114],
  [119, 111, 111, 100, 115, 105, 100, 101],
  [119, 111, 114, 107],
  [119, 111, 114, 107, 115],
  [119, 111, 114, 108, 100],
  [119, 111, 119],
  [119, 116, 99],
  [119, 116, 102],
  [120, 98, 111, 120],
  [120, 101, 114, 111, 120],
  [120, 102, 105, 110, 105, 116, 121],
  [120, 105, 104, 117, 97, 110],
  [120, 105, 110],
  [1071, 1094, 1035, 1071, 1062, 1029, 1071, 1094, 171],
  [1089, 1107, 9559, 1089, 1027, 9565, 1089, 1027, 1060],
  [1057, 1081, 1039, 1090, 9618, 9618],
  [1058, 1025, 1109, 1090, 1116, 1105],
  [1078, 1039, 1108, 1090, 1039, 1073],
  [1090, 1102, 1077, 1091, 9553, 9488],
  [1090, 1094, 1044, 1057, 9565, 1036, 1058, 9618, 1081, 1059, 1081, 1076],
  [1091, 1107, 9571, 1091, 1102, 1030],
  [1071, 1048, 1105, 1071, 1048, 1043, 1071, 1048, 1040],
  [1090, 1025, 1060, 1090, 1031, 1076],
  [1056, 1106, 1032, 9496, 1025, 9496, 1109, 9496, 1107, 1087, 9571, 1056, 1106, 1112],
  [1090, 1025, 1075, 1091, 1039, 1110],
  [1090, 1025, 1075, 1090, 1032, 1048],
  [1078, 1076, 1038, 1058, 1072, 9565, 1078, 1028, 1111, 1058, 1030, 1029],
  [1091, 1081, 1033, 1091, 1060, 1038],
  [1091, 1044, 9559, 1090, 1110, 1077],
  [1058, 1109, 1033, 1091, 1109, 9618, 1057, 1081, 1072],
  [1083, 9565, 1083, 1049, 1051, 1026, 1083, 9553, 1083, 9619, 1083, 9617],
  [1083, 9553, 1083, 9617, 1051, 1107, 1083, 1049, 1083, 9559, 1083, 1048, 1083, 9553],
  [1083, 1049, 1083, 1081, 1083, 9559, 1083, 9617, 1083, 9571, 1083, 1081],
  [1051, 1026, 1083, 9617, 1083, 9571, 1051, 1107],
  [1059, 1026, 1115, 1078, 1106, 1119],
  [1056, 1106, 1032, 1054, 1044, 1054, 1035, 1054, 1070, 1056, 1106, 1112],
  [1058, 1036, 1061, 1090, 9617, 1119],
  [1090, 1049, 171, 1090, 1031, 1119],
  [1058, 1080, 1040, 1078, 1045, 1075, 1078, 1115, 1040],
  [1089, 1027, 1035, 1089, 1107, 1040, 1089, 1027, 1027, 1089, 1107, 1080, 1089, 1027, 1044, 1089, 1027, 9474],
  [1083, 1049, 1051, 1106, 1083, 9474],
  [1071, 1094, 1077, 1071, 1062, 1028, 1071, 1094, 1066],
  [1089, 1107, 9571, 1089, 1027, 1109, 1089, 1107, 1073],
  [1042, 1107, 9565, 1042, 1105, 9618],
  [1090, 1035, 1108, 1058, 1072, 1028],
  [1090, 1035, 1108, 1090, 9553, 1036],
  [1090, 1035, 1108, 1090, 1066, 1112],
  [1083, 9508, 1083, 1093, 1051, 1107, 1083, 1048],
  [1089, 1027, 1070, 1089, 1107, 1094, 1089, 1027, 9474, 1089, 1027, 1109],
  [1058, 1116, 9617, 1078, 1036, 9559],
  [1090, 1080, 1062, 1059, 1040, 1111],
  [1090, 171, 1061, 1078, 1039, 9559],
  [1056, 1106, 1032, 9496, 1027, 9496, 1109, 9496, 1025, 1056, 1106, 1112],
  [1057, 1048, 1043, 1058, 1116, 1028, 1091, 1081, 1033],
  [1057, 1048, 1043, 1057, 9488, 1040],
  [1090, 1077, 9618, 1057, 9571, 1113],
  [1059, 9617, 1080, 1058, 1043, 1111],
  [1078, 1039, 9559, 1059, 1077, 1110, 1091, 1039, 1109, 1091, 1044, 1033],
  [1059, 9508, 1043, 1091, 1029, 1045],
  [1089, 1107, 187, 1089, 1027, 1045, 1089, 1107, 1076, 1089, 1027, 1029],
  [1078, 1106, 1119, 1059, 9619, 1045],
  [1091, 1081, 1033, 1090, 9553, 1036],
  [1071, 1094, 1048, 1071, 1094, 1107, 1071, 1094, 1036, 1071, 1094, 1072, 1071, 1094, 1077],
  [1078, 1094, 1113, 1090, 1112, 1025],
  [1091, 1081, 1033, 1091, 9559, 1102],
  [1083, 9553, 1083, 1049, 1083, 9565],
  [1059, 187, 9553, 1090, 1066, 9553, 1057, 9553, 1119],
  [1078, 1041, 1066, 1090, 1034, 1026],
  [1078, 1041, 1098, 1090, 1109, 1045, 1058, 1093, 1076],
  [1058, 1029, 1030, 1059, 1040, 1077],
  [1058, 1029, 1030, 1058, 1102, 9553],
  [1056, 1106, 1032, 1087, 1044, 1087, 9618, 1087, 1044, 9496, 1025, 9496, 1027, 9496, 1109, 1056, 1106, 1112],
  [1056, 1106, 1032, 1087, 1044, 9496, 1105, 1087, 9571, 9496, 1105, 9496, 1110, 1087, 1044, 9496, 1108, 1056, 1106, 1112],
  [1056, 1106, 1032, 1087, 1044, 1087, 1092, 1087, 1093, 1087, 1044, 9496, 1105, 1087, 1044, 1087, 1092, 1056, 1106, 1112],
  [1056, 1106, 1032, 1087, 1077, 1087, 1044, 1087, 9619, 1087, 1044, 1087, 9618, 1056, 1106, 1112],
  [1056, 1106, 1032, 9496, 1025, 9496, 1109, 1087, 1077, 1087, 1044, 9496, 1110, 9496, 1105, 9496, 1110, 1056, 1106, 1112],
  [1056, 1106, 1032, 1087, 1044, 1087, 1077, 9496, 1109, 1087, 1048, 1087, 1077, 9496, 1110, 1056, 1106, 1112],
  [1056, 1106, 1032, 9496, 1027, 1087, 1044, 1087, 1060, 9496, 1109, 9496, 1105, 9496, 1110, 9496, 1027, 1056, 1106, 1112],
  [1056, 1106, 1032, 9496, 1028, 9496, 1025, 1087, 9618, 1087, 1044, 9496, 1028, 1056, 1106, 1112],
  [1074, 1030, 1080, 1042, 9559, 9508],
  [1058, 1115, 9488, 1090, 9553, 1102],
  [1056, 1106, 1032, 1087, 9508, 1087, 1077, 9496, 1027, 1087, 1045, 1056, 1106, 1112],
  [1056, 1106, 1032, 1087, 1077, 9496, 1110, 1087, 1092, 9496, 1027, 1056, 1106, 1112],
  [1056, 1106, 1032, 1087, 9571, 1087, 9618, 1087, 1077, 1056, 1106, 1112],
  [1058, 1102, 9553, 1058, 1098, 1105],
  [1091, 9559, 1105, 1091, 9559, 1028, 1058, 1102, 9553, 1058, 1098, 1105],
  [1090, 1026, 1062, 1090, 9553, 1080],
  [1058, 1030, 1039, 1059, 1026, 1118],
  [1051, 1106, 1051, 1027, 1051, 1026],
  [1091, 1032, 1072, 1090, 171, 1070],
  [1090, 1094, 1044, 1058, 1030, 9488],
  [1089, 1026, 9488, 1089, 1107, 1034, 1089, 1026, 1092]]

def gTLD_CHUNK_12 : List (List Nat) :=
  [[1089, 1107, 9617, 1089, 1027, 9565, 1089, 1107, 9617, 1089, 1027, 1060],
  [1057, 1048, 1116, 1091, 1035, 1111],
  [1058, 1039, 1048, 1091, 9618, 1031],
  [1091, 1081, 1033, 1090, 1070, 1106],
  [1074, 1030, 1080, 1074, 1105, 1080],
  [1089, 1107, 9474, 1089, 1027, 1072],
  [1090, 1094, 1045, 1057, 1048, 9559, 1058, 1035, 1038],
  [1058, 1048, 1048, 1058, 1109, 1032],
  [118, 101, 114, 109, 9500, 1061, 103, 101, 110, 115, 98, 101, 114, 97, 116, 101, 114],
  [118, 101, 114, 109, 9500, 1061, 103, 101, 110, 115, 98, 101, 114, 97, 116, 117, 110, 103],
  [1057, 9565, 1026, 1057, 1048, 1119],
  [1057, 9488, 1040, 1058, 1026, 187],
  [1090, 1118, 1029, 1078, 1028, 1111, 1090, 1094, 1044, 1078, 1025, 1114, 1090, 9553, 1036],
  [1090, 1118, 1029, 1078, 1028, 1111],
  [1090, 9571, 9488, 1057, 1048, 1102],
  [1058, 1115, 9488, 1090, 1110, 1040],
  [120, 112, 101, 114, 105, 97],
  [120, 121, 122],
  [121, 97, 99, 104, 116, 115],
  [121, 97, 104, 111, 111],
  [121, 97, 109, 97, 120, 117, 110],
  [121, 97, 110, 100, 101, 120],
  [121, 111, 100, 111, 98, 97, 115, 104, 105],
  [121, 111, 103, 97],
  [121, 111, 107, 111, 104, 97, 109, 97],
  [121, 111, 117],
  [121, 111, 117, 116, 117, 98, 101],
  [121, 117, 110],
  [122, 97, 112, 112, 111, 115],
  [122, 97, 114, 97],
  [122, 101, 114, 111],
  [122, 105, 112],
  [122, 105, 112, 112, 111],
  [122, 111, 110, 101],
  [122, 117, 101, 114, 105, 99, 104],
  [98, 105, 122],
  [110, 97, 109, 101],
  [112, 114, 111],
  [97, 114, 112, 97],
  [97, 101, 114, 111],
  [97, 115, 105, 97],
  [99, 97, 116],
  [99, 111, 111, 112],
  [101, 100, 117],
  [103, 111, 118],
  [105, 110, 116],
  [106, 111, 98, 115],
  [109, 105, 108],
  [109, 117, 115, 101, 117, 109],
  [112, 111, 115, 116],
  [116, 101, 108],
  [116, 114, 97, 118, 101, 108],
  [120, 120, 120]]

/-- The gTLD alternation entries of REGEXEN valid_gTLD (regex.py line 183),
in source order. -/
def gTLD_ENTRIES : List (List Nat) :=
  gTLD_CHUNK_0 ++ gTLD_CHUNK_1 ++ gTLD_CHUNK_2 ++ gTLD_CHUNK_3 ++ gTLD_CHUNK_4 ++ gTLD_CHUNK_5 ++ gTLD_CHUNK_6 ++ gTLD_CHUNK_7 ++ gTLD_CHUNK_8 ++ gTLD_CHUNK_9 ++ gTLD_CHUNK_10 ++ gTLD_CHUNK_11 ++ gTLD_CHUNK_12

def ccTLD_CHUNK_0 : List (List Nat) :=
  [[97, 99],
  [97, 100],
  [97, 101],
  [97, 102],
  [97, 103],
  [97, 105],
  [97, 108],
  [97, 109],
  [97, 110],
  [97, 111],
  [97, 113],
  [97, 114],
  [97, 115],
  [97, 116],
  [97, 117],
  [97, 119],
  [97, 120],
  [97, 122],
  [98, 97],
  [98, 98],
  [98, 100],
  [98, 101],
  [98, 102],
  [98, 103],
  [98, 104],
  [98, 105],
  [98, 106],
  [98, 108],
  [98, 109],
  [98, 110],
  [98, 111],
  [98, 113],
  [98, 114],
  [98, 115],
  [98, 116],
  [98, 118],
  [98, 119],
  [98, 121],
  [98, 122],
  [99, 97],
  [99, 99],
  [99, 100],
  [99, 102],
  [99, 103],
  [99, 104],
  [99, 105],
  [99, 107],
  [99, 108],
  [99, 109],
  [99, 110],
  [99, 111],
  [99, 114],
  [99, 117],
  [99, 118],
  [99, 119],
  [99, 120],
  [99, 121],
  [99, 122],
  [100, 101],
  [100, 106],
  [100, 107],
  [100, 109],
  [100, 111],
  [100, 122],
  [101, 99],
  [101, 101],
  [101, 103],
  [101, 104],
  [101, 114],
  [101, 115],
  [101, 116],
  [101, 117],
  [102, 105],
  [102, 106],
  [102, 107],
  [102, 109],
  [102, 111],
  [102, 114],
  [103, 97],
  [103, 98],
  [103, 100],
  [103, 101],
  [103, 102],
  [103, 103],
  [103, 104],
  [103, 105],
  [103, 108],
  [103, 109],
  [103, 110],
  [103, 112],
  [103, 113],
  [103, 114],
  [103, 115],
  [103, 116],
  [103, 117],
  [103, 119],
  [103, 121],
  [104, 107],
  [104, 109],
  [104, 110]]

def ccTLD_CHUNK_1 : List (List Nat) :=
  [[104, 114],
  [104, 116],
  [104, 117],
  [105, 100],
  [105, 101],
  [105, 108],
  [105, 109],
  [105, 110],
  [105, 111],
  [105, 113],
  [105, 114],
  [105, 115],
  [105, 116],
  [106, 101],
  [106, 109],
  [106, 111],
  [106, 112],
  [107, 101],
  [107, 103],
  [107, 104],
  [107, 105],
  [107, 109],
  [107, 110],
  [107, 112],
  [107, 114],
  [107, 119],
  [107, 121],
  [107, 122],
  [108, 97],
  [108, 98],
  [108, 99],
  [108, 105],
  [108, 107],
  [108, 114],
  [108, 115],
  [108, 116],
  [108, 117],
  [108, 118],
  [108, 121],
  [109, 97],
  [109, 99],
  [109, 100],
  [109, 101],
  [109, 102],
  [109, 103],
  [109, 104],
  [109, 107],
  [109, 108],
  [109, 109],
  [109, 110],
  [109, 111],
  [109, 112],
  [109, 113],
  [109, 114],
  [109, 115],
  [109, 116],
  [109, 117],
  [109, 118],
  [109, 119],
  [109, 120],
  [109, 121],
  [109, 122],
  [110, 97],
  [110, 99],
  [110, 101],
  [110, 102],
  [110, 103],
  [110, 105],
  [110, 108],
  [110, 111],
  [110, 112],
  [110, 114],
  [110, 117],
  [110, 122],
  [111, 109],
  [112, 97],
  [112, 101],
  [112, 102],
  [112, 103],
  [112, 104],
  [112, 107],
  [112, 108],
  [112, 109],
  [112, 110],
  [112, 114],
  [112, 115],
  [112, 116],
  [112, 119],
  [112, 121],
  [113, 97],
  [114, 101],
  [114, 111],
  [114, 115],
  [114, 117],
  [114, 119],
  [115, 97],
  [115, 98],
  [115, 99],
  [115, 100],
  [115, 101]]

def ccTLD_CHUNK_2 : List (List Nat) :=
  [[115, 103],
  [115, 104],
  [115, 105],
  [115, 106],
  [115, 107],
  [115, 108],
  [115, 109],
  [115, 110],
  [115, 111],
  [115, 114],
  [115, 115],
  [115, 116],
  [115, 117],
  [115, 118],
  [115, 120],
  [115, 121],
  [115, 122],
  [116, 99],
  [116, 100],
  [116, 102],
  [116, 103],
  [116, 104],
  [116, 106],
  [116, 107],
  [116, 108],
  [116, 109],
  [116, 110],
  [116, 111],
  [116, 112],
  [116, 114],
  [116, 116],
  [116, 118],
  [116, 119],
  [116, 122],
  [117, 97],
  [117, 103],
  [117, 107],
  [117, 109],
  [117, 115],
  [117, 121],
  [117, 122],
  [118, 97],
  [118, 99],
  [118, 101],
  [118, 103],
  [118, 105],
  [118, 110],
  [118, 117],
  [119, 102],
  [119, 115],
  [1071, 9619, 1043, 1071, 9619, 1049, 1071, 9619, 9617, 1071, 9619, 1094],
  [1100, 1035, 1102, 1046, 1093, 1043],
  [1071, 1075, 1043, 1071, 1075, 1049, 1071, 1075, 9617, 1071, 1075, 1094],
  [1071, 1076, 1043, 1071, 1076, 1049, 1071, 1044, 9617, 1071, 1076, 1094],
  [1071, 1076, 1043, 1071, 1076, 1049, 1071, 1076, 9617, 1071, 1076, 1094],
  [1071, 1076, 1075, 1071, 1076, 1049, 1071, 1076, 1107, 1071, 1076, 9619, 1071, 1076, 1049],
  [1084, 1039, 1083, 9617, 1083, 1080],
  [1051, 1026, 1051, 1106, 1083, 9618],
  [1083, 9618, 1083, 9474],
  [1083, 9618, 1083, 1093, 1083, 9559],
  [1071, 171, 1119, 1071, 171, 9488, 1071, 171, 1038, 1071, 187, 1031, 1071, 171, 1035, 1071, 171, 1092, 1071, 187, 1031, 1071, 171, 1092, 1071, 187, 1107, 1071, 171, 9617, 1071, 187, 1031],
  [1083, 9565, 1083, 9553, 1083, 9508],
  [1083, 1093, 1051, 1112],
  [1057, 1048, 1043, 1090, 1039, 1081],
  [1057, 1048, 1043, 1090, 1102, 1030],
  [1071, 9617, 1043, 1071, 9617, 1049, 1071, 9617, 9617, 1071, 9617, 1094, 1071, 9618, 1031],
  [1071, 1061, 1081, 1071, 1061, 1107, 1071, 1061, 1119, 1071, 1080, 1032],
  [1071, 1092, 1043, 1071, 1092, 1049, 1071, 1092, 9617, 1071, 1092, 1094],
  [1071, 1094, 1043, 1071, 1094, 1049, 1071, 1094, 9617, 1071, 1094, 1094, 1071, 1094, 171, 1071, 1062, 1031],
  [1071, 1094, 1043, 1071, 1094, 1049, 1071, 1094, 9617, 1071, 1094, 1094],
  [1071, 1094, 1043, 1071, 1094, 1049, 1071, 1094, 9617, 1071, 1062, 1030, 1071, 1094, 1094],
  [1051, 1027, 1083, 9553, 1051, 1106],
  [1078, 1076, 1038, 1058, 1048, 187],
  [1090, 1032, 9617, 1058, 9571, 1049],
  [1090, 1032, 9617, 1091, 1026, 1041],
  [1083, 9565, 1083, 1049, 1083, 1081],
  [1056, 1106, 1032, 1087, 1044, 9496, 1105, 1087, 1075, 1087, 9619, 1087, 1044, 1087, 1076, 1087, 9618, 1056, 1106, 1112],
  [1056, 1106, 1032, 1087, 9571, 9496, 1025, 1087, 1044, 9496, 1108, 1056, 1106, 1112],
  [1056, 1106, 1032, 1087, 1044, 9608, 1111, 1087, 9618, 1087, 1044, 9496, 1108, 1056, 1106, 1112],
  [1056, 1106, 1032, 1087, 1044, 9496, 1025, 1087, 1044, 1087, 9618, 1087, 1044, 1087, 1092, 1056, 1106, 1112],
  [1056, 1106, 1032, 9496, 1025, 9496, 1109, 1087, 9618, 9496, 1110, 1087, 1092, 1087, 1044, 9496, 1108, 9496, 1110, 1087, 1044, 1056, 1106, 1112],
  [1056, 1106, 1032, 9496, 1049, 1087, 1044, 9484, 1045, 1087, 9474, 1087, 1092, 1087, 1044, 9496, 1108, 1056, 1106, 1112],
  [1056, 1106, 1032, 1087, 1044, 9496, 1105, 1087, 1044, 1087, 9618, 1087, 187, 9496, 1108, 1056, 1106, 1112],
  [1056, 1106, 1032, 1087, 1077, 1087, 1044, 1087, 9618, 1087, 1092, 1056, 1106, 1112],
  [1056, 1106, 1032, 1087, 1077, 9484, 1049, 1087, 1044, 1087, 9618, 1087, 1092, 1056, 1106, 1112],
  [1056, 1106, 1032, 1087, 1044, 9496, 1105, 9496, 1025, 1087, 9553, 1087, 9618, 1087, 1077, 1056, 1106, 1112],
  [1056, 1106, 1032, 1087, 1044, 9496, 1105, 1087, 9474, 1087, 9571, 9496, 1109, 1087, 187, 9496, 1110, 1087, 1045, 1056, 1106, 1112],
  [1056, 1106, 1032, 9484, 1106, 1087, 1044, 1087, 9618, 1087, 1092, 1056, 1106, 1112],
  [1056, 1106, 1032, 1087, 9474, 9496, 1109, 1087, 187, 1087, 1044, 9496, 1108, 1056, 1106, 1112],
  [1056, 1106, 1032, 1087, 9571, 1087, 9618, 1087, 1044, 9496, 1107, 1056, 1106, 1112],
  [1056, 1106, 1032, 9496, 1025, 9496, 1105, 9496, 1110, 1087, 9474, 9496, 1110, 1087, 1044, 1056, 1106, 1112],
  [1058, 1049, 9474, 1078, 1116, 1106],
  [1088, 1027, 1114, 1088, 1027, 1115],
  [1071, 9571, 1105, 1071, 1048, 1036, 1071, 1048, 1073],
  [1056, 1106, 1032, 1087, 9474, 9496, 1109, 1087, 9618, 9496, 1110, 1087, 1045, 1056, 1106, 1112],
  [1051, 1106, 1051, 1105],
  [1056, 1106, 1032, 1087, 1092, 9496, 1109, 9496, 1108, 1087, 9474, 1056, 1106, 1112],
  [9580, 1093, 9580, 9559],
  [1071, 9508, 1043, 1071, 9508, 1049, 1071, 9508, 9617, 1071, 9508, 1094, 1071, 9508, 1107],
  [1071, 1077, 1043, 1071, 1077, 1049, 1071, 1077, 9617, 1071, 1077, 1094]]

def ccTLD_CHUNK_3 : List (List Nat) :=
  [[1056, 1106, 1032, 9496, 1025, 1087, 1093, 1087, 9618, 1056, 1106, 1112],
  [1056, 1106, 1032, 9496, 1107, 1087, 1080, 1087, 9618, 1056, 1106, 1112],
  [1071, 171, 1028, 1071, 171, 9619, 1071, 171, 1038, 1071, 187, 1031, 1071, 171, 1035, 1071, 187, 1109],
  [1071, 171, 1028, 1071, 171, 1077, 1071, 187, 1031, 1071, 171, 1094, 1071, 171, 9488, 1071, 171, 187, 1071, 171, 1049],
  [1053, 9617, 1053, 1040, 1053, 1093],
  [1058, 1116, 9617, 1090, 1110, 1072, 1090, 1070, 1040],
  [1056, 1106, 1032, 9496, 1026, 9496, 1105, 1087, 9474, 1087, 1080, 9496, 1110, 9496, 1108, 1056, 1106, 1112],
  [121, 101],
  [121, 116],
  [122, 97],
  [122, 109],
  [122, 119]]

/-- The ccTLD alternation entries of REGEXEN valid_ccTLD (regex.py line 184),
in source order. -/
def ccTLD_ENTRIES : List (List Nat) :=
  ccTLD_CHUNK_0 ++ ccTLD_CHUNK_1 ++ ccTLD_CHUNK_2 ++ ccTLD_CHUNK_3

/-- The lookahead (?=[^0-9a-z]|$) following each TLD alternation, with
IGNORECASE. -/
def tldBoundary (l : List Nat) : Bool :=
  match l with
  | [] => true
  | c :: _ =>
    let lc := lowAsc c
    !((decide (48 ≤ lc) && decide (lc ≤ 57)) || (decide (97 ≤ lc) && decide (lc ≤ 122)))

/-- A TLD literal alternation with its trailing lookahead: for each entry
in order, a candidate remainder when the entry is a (case-insensitive)
prefix of the input and the lookahead holds after it. -/
def mTldAlt (ts : List (List Nat)) : M := fun l =>
  ts.filterMap (fun t =>
    if isPrefixICN t l then
      let r := l.drop t.length
      if tldBoundary r then some r else none
    else none)

/- ----------------------------------------------------------------
   The URL pattern REGEXEN valid_url (regex.py lines 178-219)
   ---------------------------------------------------------------- -/

/-- A domain-valid character. -/
def mDomainChar : M := mChar isDomainValid

/-- valid_subdomain (regex.py line 181):
(?:(?:X(?:[_-]|X)*)?X\.) with X the domain-valid class. -/
def mSubdomain : M :=
  mSeq (mOpt (mSeq mDomainChar
            (mStar (mAlt (mChar (fun c => c == 95 || c == 45)) mDomainChar))))
    (mSeq mDomainChar (mChar (fun c => c == 46)))

/-- valid_domain_name (regex.py line 182):
(?:(?:X(?:[-]|X)*)?X\.) with X the domain-valid class. -/
def mDomainName : M :=
  mSeq (mOpt (mSeq mDomainChar
            (mStar (mAlt (mChar (fun c => c == 45)) mDomainChar))))
    (mSeq mDomainChar (mChar (fun c => c == 46)))

/-- A character of [0-9a-z] under IGNORECASE. -/
def isDigitAlphaIC (c : Nat) : Bool :=
  let lc := lowAsc c
  (decide (48 ≤ lc) && decide (lc ≤ 57)) || (decide (97 ≤ lc) && decide (lc ≤ 122))

/-- valid_punycode (regex.py line 185): (?:xn--[0-9a-z]+). -/
def mPunycode : M := mSeq (mStrIC [120, 110, 45, 45]) (mPlus (mChar isDigitAlphaIC))

/-- valid_domain (regex.py line 187):
(?:subdomain* domain_name (?:gTLD|ccTLD|punycode)). -/
def mDomain : M :=
  mSeq (mStar mSubdomain)
    (mSeq mDomainName (mAlt (mTldAlt gTLD_ENTRIES) (mAlt (mTldAlt ccTLD_ENTRIES) mPunycode)))

/-- The optional protocol (https?:\/\/)? of valid_url (regex.py line 212),
under IGNORECASE. -/
def mProtocolOpt : M :=
  mOpt (mSeq (mStrIC [104, 116, 116, 112])
    (mSeq (mOpt (mChar (fun c => lowAsc c == 115))) (mStrIC [58, 47, 47])))

/-- The optional port (?::([0-9]+))? of valid_url (regex.py lines 198, 212). -/
def mPortOpt : M :=
  mOpt (mSeq (mChar (fun c => c == 58))
    (mPlus (mChar (fun c => decide (48 ≤ c) && decide (c ≤ 57)))))

/-- valid_general_url_path_chars (regex.py line 200), with the Latin
accent ranges, under IGNORECASE. -/
def isGeneralPathChar (c : Nat) : Bool :=
  let lc := lowAsc c
  (decide (97 ≤ lc) && decide (lc ≤ 122)) || (decide (48 ≤ lc) && decide (lc ≤ 57)) ||
  [33, 42, 39, 59, 58, 61, 43, 44, 46, 36, 47, 37, 35, 91, 93, 45, 95, 126,
   38, 124, 64].contains lc ||
  inRanges LATIN_ACCENT_RANGES c

/-- valid_url_balanced_parens (regex.py line 204): \(G+\). -/
def mBalancedParens : M :=
  mSeq (mChar (fun c => c == 40))
    (mSeq (mPlus (mChar isGeneralPathChar)) (mChar (fun c => c == 41)))

/-- valid_url_path_ending_chars (regex.py line 207), first alternative:
[a-z0-9=_#\/\+\-LATIN] under IGNORECASE. -/
def isPathEndingChar (c : Nat) : Bool :=
  let lc := lowAsc c
  (decide (97 ≤ lc) && decide (lc ≤ 122)) || (decide (48 ≤ lc) && decide (lc ≤ 57)) ||
  [61, 95, 35, 47, 43, 45].contains lc ||
  inRanges LATIN_ACCENT_RANGES c

/-- valid_url_path (regex.py line 208):
(?:(?:G*(?:B G*)*E)|(?:G+\/)) where E is a path-ending character or a
balanced-parenthesis group; note the literal space character between the
balanced-parenthesis group and the following G* in the source. -/
def mUrlPath : M :=
  mAlt
    (mSeq (mStar (mChar isGeneralPathChar))
      (mSeq (mStar (mSeq mBalancedParens
                (mSeq (mChar (fun c => c == 32)) (mStar (mChar isGeneralPathChar)))))
        (mAlt (mChar isPathEndingChar) mBalancedParens)))
    (mSeq (mPlus (mChar isGeneralPathChar)) (mChar (fun c => c == 47)))

/-- The optional path part (/path*)? of valid_url (regex.py line 212). -/
def mPathPartOpt : M := mOpt (mSeq (mChar (fun c => c == 47)) (mStar mUrlPath))

/-- valid_url_query_chars (regex.py line 210), under IGNORECASE. -/
def isQueryChar (c : Nat) : Bool :=
  let lc := lowAsc c
  (decide (97 ≤ lc) && decide (lc ≤ 122)) || (decide (48 ≤ lc) && decide (lc ≤ 57)) ||
  [33, 63, 42, 39, 40, 41, 59, 58, 38, 61, 43, 36, 47, 37, 35, 91, 93, 45,
   95, 46, 44, 126, 124, 64].contains lc

/-- valid_url_query_ending_chars (regex.py line 211): [a-z0-9_&=#\/]. -/
def isQueryEndingChar (c : Nat) : Bool :=
  let lc := lowAsc c
  (decide (97 ≤ lc) && decide (lc ≤ 122)) || (decide (48 ≤ lc) && decide (lc ≤ 57)) ||
  [95, 38, 61, 35, 47].contains lc

/-- The optional query (\?Q*E)? of valid_url (regex.py line 212). -/
def mQueryOpt : M :=
  mOpt (mSeq (mChar (fun c => c == 63))
    (mSeq (mStar (mChar isQueryChar)) (mChar isQueryEndingChar)))

/-- Group 3 of valid_url (regex.py line 212): the URL itself, everything
after the preceding-character group. -/
def mUrlBody : M :=
  mSeq mProtocolOpt (mSeq mDomain (mSeq mPortOpt (mSeq mPathPartOpt mQueryOpt)))

/- ----------------------------------------------------------------
   URL extraction
   ---------------------------------------------------------------- -/

/-- An extracted URL entity: the matched URL text and its half-open
code-unit span [start, stop) in the original text. -/
structure UrlEnt where
  url : List Nat
  start : Nat
  stop : Nat
deriving DecidableEq

/-- One attempt to match valid_url at the current position, where l is
the suffix of the text starting there and atStart records whether that
position is the start of the string.  The preceding-character group
(?:[^...]|^) tries its character-class alternative first and the
start-of-string anchor second; on success the result is the length of
the preceding part (1 or 0) together with the URL (group 3), which is
the prefix of code units that the first (greedy) match of the URL body
consumes. -/
def tryUrlAt (atStart : Bool) (l : List Nat) : Option (Nat × List Nat) :=
  match l with
  | [] => none
  | c :: r =>
    match (if isUrlPrecedingOk c then
        (mUrlBody r).head?.map (fun rem => (1, r.take (r.length - rem.length)))
      else none) with
    | some x => some x
    | none =>
      if atStart then
        (mUrlBody (c :: r)).head?.map
          (fun rem => (0, (c :: r).take ((c :: r).length - rem.length)))
      else none

/-- The finditer scan of valid_url: positions are tried left to right,
and scanning resumes after the end of each match.  i is the absolute
position of the suffix l within the text; the fuel argument is an upper
bound on the number of steps (each step either advances one position or
consumes a whole match). -/
def scanUrls : Nat → Nat → List Nat → List UrlEnt
  | 0, _, _ => []
  | _ + 1, _, [] => []
  | f + 1, i, c :: r =>
    match tryUrlAt (i == 0) (c :: r) with
    | some (p, u) =>
      ⟨u, i + p, i + p + u.length⟩ ::
        scanUrls f (i + p + u.length) ((c :: r).drop (p + u.length))
    | none => scanUrls f (i + 1) r

/-- Modelled from the spec: Extractor.extract_urls_with_indices.  The
extractor module of this repository is not under src/; per the spec
(sections 4.2, 4.3 and 4.4) the URL pattern - REGEXEN valid_url,
embedded above from src/twitter_text/regex.py - is run over the full
text and each matched URL is recorded with its code-unit span. -/
def extract_urls_with_indices (t : List Nat) : List UrlEnt :=
  scanUrls t.length 0 t

/- ----------------------------------------------------------------
   tweet_length and tweet_invalid (validation.py lines 49-132)
   ---------------------------------------------------------------- -/

/-- The lowercase characters of https:// as code units. -/
def HTTPS_SEQ : List Nat := [104, 116, 116, 112, 115, 58, 47, 47]

/-- tweet_length (validation.py lines 49-100).  The first component is
the returned length; the second is the state of the caller-supplied
options dictionary after the call (the source fills missing keys into
that dictionary in place).  The url loop subtracts each URL span
(indices[0] - indices[1]) and adds the https replacement length when the
lowercased URL contains the substring https:// anywhere (str.find), and
the plain replacement length otherwise. -/
def tweet_length (text : List Nat) (options : TcoOptions) : Int × TcoOptions :=
  let o := fillOptions options
  let base : Int := ((weightedSum text / 100 : Nat) : Int)
  let len := (extract_urls_with_indices text).foldl
    (fun acc u =>
      acc + ((u.start : Int) - (u.stop : Int)) +
        (if containsSub HTTPS_SEQ (u.url.map lowAsc) then
          o.short_url_length_https.getD 0
        else o.short_url_length.getD 0))
    base
  (len, o)

/-- The three validation error values of tweet_invalid. -/
inductive TweetError where
  | emptyText
  | tooLong
  | invalidCharacters
deriving DecidableEq

/-- tweet_invalid (validation.py lines 102-132).  none models the return
value False (valid text).  The source calls self.tweet_length() twice
(lines 118 and 121) with the same default options, always obtaining the
same value, modelled by the single binding below.  The three checks run
in source order, each
overwriting the previously recorded error, and the invalid-characters
check searches for the literal concatenation of the eight
INVALID_CHARACTERS as a single substring (validation.py line 124). -/
def tweet_invalid (text : List Nat) : Option TweetError :=
  let len := (tweet_length text emptyOptions).1
  let e : Option TweetError := none
  let e := if len == 0 then some TweetError.emptyText else e
  let e := if len > (MAX_LENGTH : Int) then some TweetError.tooLong else e
  let e := if containsSub INVALID_CHARACTERS text then some TweetError.invalidCharacters else e
  e

/- ----------------------------------------------------------------
   Hashtag grammar (regex.py lines 80-162)
   ---------------------------------------------------------------- -/

/-- NON_LATIN_HASHTAG_CHARS ranges (regex.py lines 80-127). -/
def NON_LATIN_HASHTAG_RANGES : List (Nat × Nat) :=
  [(1024, 1279), (1280, 1319), (11744, 11775), (42560, 42655), (1425, 1471),
   (1473, 1474), (1476, 1477), (1479, 1479), (1488, 1514), (1520, 1524),
   (64274, 64296), (64298, 64310), (64312, 64316), (64318, 64318),
   (64320, 64321), (64323, 64324), (64326, 64335), (1552, 1562),
   (1568, 1631), (1646, 1747), (1749, 1756), (1758, 1768), (1770, 1775),
   (1786, 1788), (1791, 1791), (1872, 1919), (2208, 2208), (2210, 2220),
   (2276, 2302), (64336, 64433), (64467, 64829), (64848, 64911),
   (64914, 64967), (65008, 65019), (65136, 65140), (65142, 65276),
   (8204, 8204), (3585, 3642), (3648, 3662), (4352, 4607), (12592, 12677),
   (43360, 43391), (44032, 55215), (55216, 55295), (65441, 65500)]

/-- CJ_HASHTAG_CHARACTERS ranges (regex.py lines 129-148), including the
extended ranges added inside the try block (a wide Python build). -/
def CJ_HASHTAG_RANGES : List (Nat × Nat) :=
  [(12449, 12538), (12540, 12542), (65382, 65439), (65296, 65305),
   (65313, 65338), (65345, 65370), (12353, 12438), (12441, 12446),
   (13312, 19903), (19968, 40959), (131072, 173791), (173824, 177983),
   (177984, 178207), (194560, 195103), (12291, 12291), (12293, 12293),
   (12347, 12347)]

/-- The ranges shared by HASHTAG_ALPHA, HASHTAG_ALPHANUMERIC and
HASHTAG_BOUNDARY (regex.py lines 155-157). -/
def HASHTAG_RANGES : List (Nat × Nat) :=
  LATIN_ACCENT_RANGES ++ NON_LATIN_HASHTAG_RANGES ++ CJ_HASHTAG_RANGES

/-- HASHTAG_ALPHA (regex.py line 155): [a-z_RANGES] under IGNORECASE. -/
def isHashtagAlphaChar (c : Nat) : Bool :=
  let lc := lowAsc c
  (decide (97 ≤ lc) && decide (lc ≤ 122)) || lc == 95 || inRanges HASHTAG_RANGES c

/-- HASHTAG_ALPHANUMERIC (regex.py line 156): [a-z0-9_RANGES] under
IGNORECASE. -/
def isHashtagAlnumChar (c : Nat) : Bool :=
  isHashtagAlphaChar c || (decide (48 ≤ c) && decide (c ≤ 57))

/-- The one-character alternatives of HASHTAG_BOUNDARY (regex.py line
157): \[ or [^&a-z0-9_RANGES]; the opening bracket is itself outside the
negated class, so the two alternatives together accept exactly the
characters outside & and the alphanumeric hashtag class. -/
def isHashtagBoundaryChar (c : Nat) : Bool :=
  !(c == 38 || isHashtagAlnumChar c)

/-- The hash-sign alternation (#|＃) of HASHTAG (regex.py line 159). -/
def isHashChar (c : Nat) : Bool := c == 35 || c == 0xFF03

/-- Length of the maximal prefix of hashtag-alphanumeric characters. -/
def hashtagRun : List Nat → Nat
  | [] => 0
  | c :: r => if isHashtagAlnumChar c then hashtagRun r + 1 else 0

/-- The hashtag body A*αA* (alphanumerics with at least one alpha): the
greedy pattern matches exactly the maximal alphanumeric run when that
run contains an alphabetic character, and fails otherwise.  Returns the
body and the rest of the input. -/
def hashtagBody (l : List Nat) : Option (List Nat × List Nat) :=
  let n := hashtagRun l
  let body := l.take n
  if body.any isHashtagAlphaChar then some (body, l.drop n) else none

/-- end_hashtag_match (regex.py line 162): \A(?:[#＃]|:\/\/). -/
def endHashtagMatch (l : List Nat) : Bool :=
  match l with
  | [] => false
  | c :: r => isHashChar c || (c == 58 && isPrefixN [47, 47] r)

/-- One attempt to match HASHTAG at the current position: the boundary
alternation tries the start-of-string anchor first (\A, only when
atStart), then a consumed boundary character (\[ or the negated class;
the \z alternative can never be followed by the hash sign).  Returns the
hashtag body and the rest of the input after the match. -/
def tryHashtagAt (atStart : Bool) (l : List Nat) : Option (List Nat × List Nat) :=
  let viaStart : Option (List Nat × List Nat) :=
    if atStart then
      match l with
      | c :: r => if isHashChar c then hashtagBody r else none
      | [] => none
    else none
  match viaStart with
  | some x => some x
  | none =>
    match l with
    | b :: c :: r =>
      if isHashtagBoundaryChar b && isHashChar c then hashtagBody r else none
    | _ => none

/-- The finditer scan of HASHTAG with the end_hashtag_match filter of the
extractor: a candidate whose following text looks like a continuation
(another hash sign or ://) is discarded, and scanning resumes after the
end of each match either way. -/
def scanHashtags : Nat → Bool → List Nat → List (List Nat)
  | 0, _, _ => []
  | _ + 1, _, [] => []
  | f + 1, atStart, c :: r =>
    match tryHashtagAt atStart (c :: r) with
    | some (body, rest) =>
      (if endHashtagMatch rest then [] else [body]) ++ scanHashtags f false rest
    | none => scanHashtags f false r

/-- Modelled from the spec: Extractor.extract_hashtags.  The extractor
module of this repository is not under src/; per the spec (section 4.3)
the hashtag pattern - REGEXEN valid_hashtag, embedded above from
src/twitter_text/regex.py - is scanned over the text, the hashtag text
(without the hash sign) is collected for each match, and a final filter
drops candidates whose trailing context matches end_hashtag_match. -/
def extract_hashtags (t : List Nat) : List (List Nat) :=
  scanHashtags t.length true t

/-- valid_hashtag (validation.py lines 149-155). -/
def valid_hashtag (t : List Nat) : Bool :=
  if t.isEmpty then false
  else
    let extracted := extract_hashtags t
    extracted.length == 1 && extracted.headD [] == t.drop 1

/- ----------------------------------------------------------------
   URL validation grammar (regex.py lines 233-278) and
   valid_url (validation.py lines 157-205)
   ---------------------------------------------------------------- -/

/-- validate_url_unreserved (regex.py line 234): [a-z0-9\-._~] under
IGNORECASE. -/
def isUnreservedChar (c : Nat) : Bool :=
  isDigitAlphaIC c || [45, 46, 95, 126].contains c

/-- validate_url_sub_delims (regex.py line 236): exclamation, dollar,
ampersand, apostrophe, parentheses, asterisk, plus, comma, semicolon
and equals. -/
def isSubDelimChar (c : Nat) : Bool :=
  [33, 36, 38, 39, 40, 41, 42, 43, 44, 59, 61].contains c

/-- A hexadecimal digit under IGNORECASE. -/
def isHexDigitIC (c : Nat) : Bool :=
  let lc := lowAsc c
  (decide (48 ≤ lc) && decide (lc ≤ 57)) || (decide (97 ≤ lc) && decide (lc ≤ 102))

/-- validate_url_pct_encoded (regex.py line 235): (?:%[0-9a-f]{2}). -/
def mPctEncoded : M :=
  mSeq (mChar (fun c => c == 37)) (mSeq (mChar isHexDigitIC) (mChar isHexDigitIC))

/-- validate_url_pchar (regex.py line 237):
(?:unreserved|pct-encoded|sub-delims|[:\|@]). -/
def mPchar : M :=
  mAlt (mChar isUnreservedChar)
    (mAlt mPctEncoded
      (mAlt (mChar isSubDelimChar)
        (mChar (fun c => c == 58 || c == 124 || c == 64))))

/-- An ASCII letter under IGNORECASE. -/
def isAlphaIC (c : Nat) : Bool :=
  let lc := lowAsc c
  decide (97 ≤ lc) && decide (lc ≤ 122)

/-- An ASCII digit. -/
def isDigitChar (c : Nat) : Bool := decide (48 ≤ c) && decide (c ≤ 57)

/-- validate_url_scheme (regex.py line 239): (?:[a-z][a-z0-9+\-.]*). -/
def mValidateScheme : M :=
  mSeq (mChar isAlphaIC)
    (mStar (mChar (fun c => isAlphaIC c || isDigitChar c || c == 43 || c == 45 || c == 46)))

/-- validate_url_userinfo (regex.py line 240):
(?:unreserved|pct-encoded|sub-delims|:)*. -/
def mUserinfo : M :=
  mStar (mAlt (mChar isUnreservedChar)
    (mAlt mPctEncoded (mAlt (mChar isSubDelimChar) (mChar (fun c => c == 58)))))

/-- validate_url_dec_octet (regex.py line 242):
(?:[0-9]|(?:[1-9][0-9])|(?:1[0-9]{2})|(?:2[0-4][0-9])|(?:25[0-5])),
alternatives in source order. -/
def mDecOctet : M :=
  mAlt (mChar isDigitChar)
    (mAlt (mSeq (mChar (fun c => decide (49 ≤ c) && decide (c ≤ 57))) (mChar isDigitChar))
      (mAlt (mSeq (mChar (fun c => c == 49)) (mSeq (mChar isDigitChar) (mChar isDigitChar)))
        (mAlt (mSeq (mChar (fun c => c == 50))
                (mSeq (mChar (fun c => decide (48 ≤ c) && decide (c ≤ 52))) (mChar isDigitChar)))
          (mSeq (mChar (fun c => c == 50))
            (mSeq (mChar (fun c => c == 53)) (mChar (fun c => decide (48 ≤ c) && decide (c ≤ 53))))))))

/-- validate_url_ipv4 (regex.py line 243): (?:octet(?:\.octet){3}). -/
def mIpv4 : M :=
  mSeq mDecOctet
    (mSeq (mSeq (mChar (fun c => c == 46)) mDecOctet)
      (mSeq (mSeq (mChar (fun c => c == 46)) mDecOctet)
        (mSeq (mChar (fun c => c == 46)) mDecOctet)))

/-- validate_url_ipv6 (regex.py line 246): (?:\[[a-f0-9:\.]+\]). -/
def mIpv6 : M :=
  mSeq (mChar (fun c => c == 91))
    (mSeq (mPlus (mChar (fun c => isHexDigitIC c || c == 58 || c == 46)))
      (mChar (fun c => c == 93)))

/-- validate_url_ip (regex.py line 249): (?:ipv4|ipv6). -/
def mIp : M := mAlt mIpv4 mIpv6

/-- validate_url_subdomain_segment (regex.py line 252):
(?:[a-z0-9](?:[a-z0-9_\-]*[a-z0-9])?). -/
def mSubdomainSegment : M :=
  mSeq (mChar isDigitAlphaIC)
    (mOpt (mSeq (mStar (mChar (fun c => isDigitAlphaIC c || c == 95 || c == 45)))
      (mChar isDigitAlphaIC)))

/-- validate_url_domain_segment (regex.py line 253):
(?:[a-z0-9](?:[a-z0-9\-]*[a-z0-9])?). -/
def mDomainSegment : M :=
  mSeq (mChar isDigitAlphaIC)
    (mOpt (mSeq (mStar (mChar (fun c => isDigitAlphaIC c || c == 45)))
      (mChar isDigitAlphaIC)))

/-- validate_url_domain_tld (regex.py line 254):
(?:[a-z](?:[a-z0-9\-]*[a-z0-9])?). -/
def mDomainTld : M :=
  mSeq (mChar isAlphaIC)
    (mOpt (mSeq (mStar (mChar (fun c => isDigitAlphaIC c || c == 45)))
      (mChar isDigitAlphaIC)))

/-- validate_url_domain (regex.py line 255):
(?:(?:subdomain\.)*(?:domain\.)tld). -/
def mValidateDomain : M :=
  mSeq (mStar (mSeq mSubdomainSegment (mChar (fun c => c == 46))))
    (mSeq (mSeq mDomainSegment (mChar (fun c => c == 46))) mDomainTld)

/-- validate_url_host (regex.py line 257): (?:ip|domain). -/
def mValidateHost : M := mAlt mIp mValidateDomain

/-- A character of the Unicode domain classes: [a-z0-9]|[^\x00-\x7f]. -/
def isUniAlnum (c : Nat) : Bool := isDigitAlphaIC c || decide (127 < c)

/-- validate_url_unicode_subdomain_segment (regex.py line 260). -/
def mUniSubdomainSegment : M :=
  mSeq (mChar isUniAlnum)
    (mOpt (mSeq (mStar (mChar (fun c => isUniAlnum c || c == 95 || c == 45)))
      (mChar isUniAlnum)))

/-- validate_url_unicode_domain_segment (regex.py line 261). -/
def mUniDomainSegment : M :=
  mSeq (mChar isUniAlnum)
    (mOpt (mSeq (mStar (mChar (fun c => isUniAlnum c || c == 45)))
      (mChar isUniAlnum)))

/-- validate_url_unicode_domain_tld (regex.py line 262):
first character [a-z]|[^\x00-\x7f]. -/
def mUniDomainTld : M :=
  mSeq (mChar (fun c => isAlphaIC c || decide (127 < c)))
    (mOpt (mSeq (mStar (mChar (fun c => isUniAlnum c || c == 45)))
      (mChar isUniAlnum)))

/-- validate_url_unicode_domain (regex.py line 263). -/
def mUniDomain : M :=
  mSeq (mStar (mSeq mUniSubdomainSegment (mChar (fun c => c == 46))))
    (mSeq (mSeq mUniDomainSegment (mChar (fun c => c == 46))) mUniDomainTld)

/-- validate_url_unicode_host (regex.py line 265): (?:ip|unicode_domain). -/
def mUniHost : M := mAlt mIp mUniDomain

/-- validate_url_port (regex.py line 267): [0-9]{1,5}. -/
def mValidatePort : M := mSeq (mChar isDigitChar) (mStarF (mChar isDigitChar) 4)

/-- validate_url_unicode_authority (regex.py line 269):
(?:(userinfo)@)?(unicode_host)(?::(port))?. -/
def mUniAuthority : M :=
  mSeq (mOpt (mSeq mUserinfo (mChar (fun c => c == 64))))
    (mSeq mUniHost (mOpt (mSeq (mChar (fun c => c == 58)) mValidatePort)))

/-- validate_url_authority (regex.py line 271):
(?:(userinfo)@)?(host)(?::(port))?. -/
def mValidateAuthority : M :=
  mSeq (mOpt (mSeq mUserinfo (mChar (fun c => c == 64))))
    (mSeq mValidateHost (mOpt (mSeq (mChar (fun c => c == 58)) mValidatePort)))

/-- validate_url_path (regex.py line 273): (/pchar*)*. -/
def mValidatePath : M := mStar (mSeq (mChar (fun c => c == 47)) (mStar mPchar))

/-- validate_url_query and validate_url_fragment (regex.py lines
274-275): (pchar|/|\?)*. -/
def mValidateQuery : M := mStar (mAlt mPchar (mChar (fun c => c == 47 || c == 63)))

/-- The first match that re.match returns for m on s consumes all of s. -/
def firstFull (m : M) (s : List Nat) : Bool := (m s).head? == some []

/-- Split a list at the first occurrence of one of the stop characters:
the greedy semantics of a negated-class run such as [^/?#]*. -/
def takeUntil (stops : List Nat) : List Nat → List Nat × List Nat
  | [] => ([], [])
  | c :: r =>
    if stops.contains c then ([], c :: r)
    else
      let p := takeUntil stops r
      (c :: p.1, p.2)

/-- validate_url_unencoded (regex.py line 278):
\A(?:([^:/?#]+)://)?([^/?#]*)([^?#]*)(?:\?([^#]*))?(?:\#(.*))?\Z
applied with re.match.  The scheme group matches exactly when the first
special character of the input is a colon in a position greater than
zero and is followed by two slashes; each later group is a greedy
negated-class run, and the whole match fails only when the fragment
would have to contain a newline (the dot does not match a newline and \Z
only matches at the very end). -/
def splitUnencoded (t : List Nat) :
    Option (Option (List Nat) × List Nat × List Nat × Option (List Nat) × Option (List Nat)) :=
  let s0 := takeUntil [58, 47, 63, 35] t
  let schemeRest : Option (List Nat) × List Nat :=
    match s0.2 with
    | 58 :: 47 :: 47 :: r => if s0.1.isEmpty then (none, t) else (some s0.1, r)
    | _ => (none, t)
  let a := takeUntil [47, 63, 35] schemeRest.2
  let p := takeUntil [63, 35] a.2
  match p.2 with
  | [] => some (schemeRest.1, a.1, p.1, none, none)
  | 63 :: r =>
    let q := takeUntil [35] r
    match q.2 with
    | [] => some (schemeRest.1, a.1, p.1, some q.1, none)
    | 35 :: fr =>
      if fr.contains 10 then none
      else some (schemeRest.1, a.1, p.1, some q.1, some fr)
    | _ => none
  | 35 :: fr =>
    if fr.contains 10 then none
    else some (schemeRest.1, a.1, p.1, none, some fr)
  | _ => none

/-- _valid_match (validation.py lines 198-205).  Passing the value None
of an unmatched group with optional false reaches re_obj.match(None),
which raises TypeError: this is the error case.  Otherwise the result
records whether the first match of the pattern consumes the whole
string, with the truthiness conventions of the source (an empty string
is falsy). -/
def pyValidMatch (s : Option (List Nat)) (m : M) (optional : Bool) : Except Unit Bool :=
  match s with
  | none => if optional then Except.ok true else Except.error ()
  | some str =>
    if optional then Except.ok (str.isEmpty || firstFull m str)
    else Except.ok (!str.isEmpty && firstFull m str)

/-- The check that the scheme matches the anchored pattern https? with
IGNORECASE
(validation.py line 173); a dollar anchor also matches just before a
newline that ends the string. -/
def httpsSchemeOk (s : List Nat) : Bool :=
  let l := s.map lowAsc
  l == [104, 116, 116, 112] || l == [104, 116, 116, 112, 115] ||
  l == [104, 116, 116, 112, 10] || l == [104, 116, 116, 112, 115, 10]

/-- valid_url (validation.py lines 157-196).  The result is an Except:
ok b models a returned boolean and error () models an uncaught TypeError
raised inside _valid_match.  The checks are sequenced in the evaluation
order of the source expression, so the scheme check (the only one that
can raise) runs first when require_protocol is set.  The test
url_parts.string == self.text of line 163 always holds when the anchored
match succeeds, as does the string comparison of lines 189 and 194 once
_valid_match has returned true, so both are omitted. -/
def valid_url (t : List Nat) (unicode_domains require_protocol : Bool) :
    Except Unit Bool := do
  if t.isEmpty then return false
  match splitUnencoded t with
  | none => return false
  | some (scheme, authority, path, query, fragment) =>
    let protocolOk ←
      if require_protocol then do
        let v ← pyValidMatch scheme mValidateScheme false
        pure (v && (match scheme with
          | some s => httpsSchemeOk s
          | none => false))
      else pure true
    let pathOk ← if path.isEmpty then pure true
      else pyValidMatch (some path) mValidatePath false
    let queryOk ← pyValidMatch query mValidateQuery true
    let fragmentOk ← pyValidMatch fragment mValidateQuery true
    if !(protocolOk && pathOk && queryOk && fragmentOk) then return false
    if unicode_domains then
      let a ← pyValidMatch (some authority) mUniAuthority false
      return a
    else
      let a ← pyValidMatch (some authority) mValidateAuthority false
      return a

deriving instance DecidableEq for Except

/- ----------------------------------------------------------------
   Closed forms used to state the claims about tweet_length
   ---------------------------------------------------------------- -/

/-- The total URL adjustment of tweet_length (validation.py lines 92-96)
as a closed form: for each URL, the negative span delta indices[0] -
indices[1] plus the replacement length, the https one exactly when the
lowercased URL contains https:// as a substring. -/
def urlAdjust (o : TcoOptions) (us : List UrlEnt) : Int :=
  (us.map (fun u =>
    ((u.start : Int) - (u.stop : Int)) +
      (if containsSub HTTPS_SEQ (u.url.map lowAsc) then
        o.short_url_length_https.getD 0
      else o.short_url_length.getD 0))).sum

/-- The URL adjustment as the claim words it, for comparison: the https
replacement length is chosen exactly when the URL text begins with the
case-insensitive prefix https://. -/
def urlAdjustPrefixRule (o : TcoOptions) (us : List UrlEnt) : Int :=
  (us.map (fun u =>
    ((u.start : Int) - (u.stop : Int)) +
      (if isPrefixICN HTTPS_SEQ u.url then
        o.short_url_length_https.getD 0
      else o.short_url_length.getD 0))).sum

/-- tweet_length as the claim words it: identical to tweet_length except
that the replacement length is selected by the prefix rule. -/
def tweet_length_prefix_rule (text : List Nat) (options : TcoOptions) : Int :=
  ((weightedSum text / 100 : Nat) : Int) +
    urlAdjustPrefixRule (fillOptions options) (extract_urls_with_indices text)

/-- A matcher only produces suffixes of its input. -/
def SuffClosed (m : M) : Prop := ∀ l r, r ∈ m l → r <:+ l

/- ----------------------------------------------------------------
   Helper lemmas: weights
   ---------------------------------------------------------------- -/

theorem weightedSum_shift (t : List Nat) (a : Nat) :
    t.foldl (fun s c => s + charWeight c) a = a + weightedSum t := by
  induction t generalizing a with
  | nil => simp [weightedSum]
  | cons c ts ih =>
    simp only [weightedSum, List.foldl] at *
    rw [ih, ih (0 + charWeight c)]
    omega

theorem weightedSum_cons (c : Nat) (t : List Nat) :
    weightedSum (c :: t) = charWeight c + weightedSum t := by
  simpa [weightedSum, List.foldl] using weightedSum_shift t (0 + charWeight c)

theorem charWeight_pos (c : Nat) (h : ¬(0xd800 ≤ c ∧ c ≤ 0xdbff)) :
    100 ≤ charWeight c := by
  simp only [charWeight, weightRanges, List.foldl, if_neg h]
  split <;> try norm_num
  split <;> try norm_num
  split <;> try norm_num
  split <;> norm_num

theorem charWeight_eq_zero (c : Nat) (h : charWeight c = 0) :
    0xd800 ≤ c ∧ c ≤ 0xdbff := by
  by_contra hc
  have := charWeight_pos c hc
  omega

theorem weightedSum_zero_mem {t : List Nat} (h : weightedSum t = 0) :
    ∀ c ∈ t, charWeight c = 0 := by
  induction t with
  | nil => intro c hc; simp at hc
  | cons x ts ih =>
    rw [weightedSum_cons] at h
    intro c hc
    rcases List.mem_cons.mp hc with h1 | h1
    · subst h1; omega
    · exact ih (by omega) c h1

theorem length_le_base {t : List Nat} (h : ∀ c ∈ t, ¬(0xd800 ≤ c ∧ c ≤ 0xdbff)) :
    t.length ≤ weightedSum t / 100 := by
  rw [Nat.le_div_iff_mul_le (by norm_num : (0:Nat) < 100)]
  induction t with
  | nil => simp [weightedSum]
  | cons c ts ih =>
    rw [weightedSum_cons]
    have h1 := charWeight_pos c (h c (List.mem_cons_self c ts))
    have h2 := ih (fun x hx => h x (List.mem_cons_of_mem c hx))
    simp only [List.length_cons]
    omega

/- ----------------------------------------------------------------
   Helper lemmas: substring search
   ---------------------------------------------------------------- -/

theorem containsSub_mem_head {p : Nat} {ps t : List Nat}
    (h : containsSub (p :: ps) t = true) : p ∈ t := by
  induction t with
  | nil => simp [containsSub] at h
  | cons x ts ih =>
    simp only [containsSub, Bool.or_eq_true] at h
    rcases h with h | h
    · simp only [isPrefixN, Bool.and_eq_true, beq_iff_eq] at h
      exact h.1 ▸ List.mem_cons_self x ts
    · exact List.mem_cons_of_mem x (ih h)

/- ----------------------------------------------------------------
   Helper lemmas: matcher combinators
   ---------------------------------------------------------------- -/

theorem mChar_ne_nil {p : Nat → Bool} {l : List Nat} (h : mChar p l ≠ []) :
    ∃ c r, l = c :: r ∧ p c = true := by
  cases l with
  | nil => simp [mChar] at h
  | cons c r =>
    by_cases hp : p c
    · exact ⟨c, r, rfl, hp⟩
    · simp [mChar, hp] at h

theorem mSeq_ne_nil {a b : M} {l : List Nat} (h : mSeq a b l ≠ []) :
    ∃ r ∈ a l, b r ≠ [] := by
  by_contra hc
  push_neg at hc
  exact h (List.flatMap_eq_nil_iff.mpr hc)

theorem suffClosed_mEps : SuffClosed mEps := by
  intro l r h
  simp only [mEps, List.mem_singleton] at h
  exact h ▸ List.suffix_refl l

theorem suffClosed_mChar (p : Nat → Bool) : SuffClosed (mChar p) := by
  intro l r h
  cases l with
  | nil => simp [mChar] at h
  | cons c t =>
    simp only [mChar] at h
    split at h
    · simp only [List.mem_singleton] at h
      exact h ▸ List.suffix_cons c t
    · simp at h

theorem suffClosed_mSeq {a b : M} (ha : SuffClosed a) (hb : SuffClosed b) :
    SuffClosed (mSeq a b) := by
  intro l r h
  simp only [mSeq, List.mem_flatMap] at h
  obtain ⟨x, hx, hr⟩ := h
  exact (hb x r hr).trans (ha l x hx)

theorem suffClosed_mAlt {a b : M} (ha : SuffClosed a) (hb : SuffClosed b) :
    SuffClosed (mAlt a b) := by
  intro l r h
  rcases List.mem_append.mp h with h1 | h1
  · exact ha l r h1
  · exact hb l r h1

theorem suffClosed_mOpt {a : M} (ha : SuffClosed a) : SuffClosed (mOpt a) := by
  intro l r h
  rcases List.mem_append.mp h with h1 | h1
  · exact ha l r h1
  · simp only [List.mem_singleton] at h1
    exact h1 ▸ List.suffix_refl l

theorem suffClosed_mStarF {a : M} (ha : SuffClosed a) (f : Nat) :
    SuffClosed (mStarF a f) := by
  induction f with
  | zero => exact suffClosed_mEps
  | succ n ih =>
    intro l r h
    simp only [mStarF] at h
    rcases List.mem_append.mp h with h1 | h1
    · simp only [List.mem_flatMap] at h1
      obtain ⟨x, hx, hr⟩ := h1
      have hx2 := (List.mem_filter.mp hx).1
      exact (ih x r hr).trans (ha l x hx2)
    · simp only [List.mem_singleton] at h1
      exact h1 ▸ List.suffix_refl l

theorem suffClosed_mStar {a : M} (ha : SuffClosed a) : SuffClosed (mStar a) :=
  fun l => suffClosed_mStarF ha l.length l

theorem suffClosed_mPlus {a : M} (ha : SuffClosed a) : SuffClosed (mPlus a) :=
  suffClosed_mSeq ha (suffClosed_mStar ha)

theorem suffClosed_mStrIC (s : List Nat) : SuffClosed (mStrIC s) := by
  intro l r h
  simp only [mStrIC] at h
  split at h
  · simp only [List.mem_singleton] at h
    exact h ▸ List.drop_suffix s.length l
  · simp at h

theorem suffClosed_mTldAlt (ts : List (List Nat)) : SuffClosed (mTldAlt ts) := by
  intro l r h
  simp only [mTldAlt, List.mem_filterMap] at h
  obtain ⟨t, _, ht⟩ := h
  split at ht
  · split at ht
    · exact (Option.some_inj.mp ht) ▸ List.drop_suffix t.length l
    · simp at ht
  · simp at ht

theorem suffClosed_mDomainChar : SuffClosed mDomainChar :=
  suffClosed_mChar isDomainValid

theorem suffClosed_mSubdomain : SuffClosed mSubdomain :=
  suffClosed_mSeq
    (suffClosed_mOpt (suffClosed_mSeq suffClosed_mDomainChar
      (suffClosed_mStar (suffClosed_mAlt (suffClosed_mChar _) suffClosed_mDomainChar))))
    (suffClosed_mSeq suffClosed_mDomainChar (suffClosed_mChar _))

theorem suffClosed_mProtocolOpt : SuffClosed mProtocolOpt :=
  suffClosed_mOpt (suffClosed_mSeq (suffClosed_mStrIC _)
    (suffClosed_mSeq (suffClosed_mOpt (suffClosed_mChar _)) (suffClosed_mStrIC _)))

/- ----------------------------------------------------------------
   Helper lemmas: every URL match contains a dot
   ---------------------------------------------------------------- -/

theorem mDomainName_dot {l : List Nat} (h : mDomainName l ≠ []) : 46 ∈ l := by
  obtain ⟨r, hr, h2⟩ := mSeq_ne_nil h
  obtain ⟨r2, hr2, h3⟩ := mSeq_ne_nil h2
  obtain ⟨c, rest, hre, hc⟩ := mChar_ne_nil h3
  have hcv : c = 46 := by simpa using hc
  have hmem : 46 ∈ r2 := by
    rw [hre, hcv]
    exact List.mem_cons_self 46 rest
  have hs1 : r2 <:+ r := suffClosed_mDomainChar r r2 hr2
  have hs2 : r <:+ l :=
    suffClosed_mOpt (suffClosed_mSeq suffClosed_mDomainChar
      (suffClosed_mStar (suffClosed_mAlt (suffClosed_mChar _) suffClosed_mDomainChar))) l r hr
  exact hs2.subset (hs1.subset hmem)

theorem mDomain_dot {l : List Nat} (h : mDomain l ≠ []) : 46 ∈ l := by
  obtain ⟨r, hr, h2⟩ := mSeq_ne_nil h
  obtain ⟨r2, hr2, _⟩ := mSeq_ne_nil h2
  have hdn : mDomainName r ≠ [] := List.ne_nil_of_mem hr2
  have hs : r <:+ l := suffClosed_mStar suffClosed_mSubdomain l r hr
  exact hs.subset (mDomainName_dot hdn)

theorem mUrlBody_dot {l : List Nat} (h : mUrlBody l ≠ []) : 46 ∈ l := by
  obtain ⟨r, hr, h2⟩ := mSeq_ne_nil h
  obtain ⟨r2, hr2, _⟩ := mSeq_ne_nil h2
  have hd : mDomain r ≠ [] := List.ne_nil_of_mem hr2
  exact (suffClosed_mProtocolOpt l r hr).subset (mDomain_dot hd)

theorem tryUrlAt_cons (b : Bool) (c : Nat) (r : List Nat) :
    tryUrlAt b (c :: r) =
      (match (if isUrlPrecedingOk c then
          (mUrlBody r).head?.map (fun rem => (1, r.take (r.length - rem.length)))
        else none) with
      | some x => some x
      | none =>
        if b then
          (mUrlBody (c :: r)).head?.map
            (fun rem => (0, (c :: r).take ((c :: r).length - rem.length)))
        else none) := rfl

theorem tryUrlAt_nil (b : Bool) : tryUrlAt b [] = none := rfl

theorem tryUrlAt_none {b : Bool} {c : Nat} {r : List Nat}
    (h1 : mUrlBody r = []) (h2 : mUrlBody (c :: r) = []) :
    tryUrlAt b (c :: r) = none := by
  rw [tryUrlAt_cons, h1, h2]
  simp

theorem tryUrlAt_dot {b : Bool} {l : List Nat} {x : Nat × List Nat}
    (h : tryUrlAt b l = some x) : 46 ∈ l := by
  cases l with
  | nil =>
    rw [tryUrlAt_nil] at h
    exact absurd h (by simp)
  | cons c r =>
    by_cases h1 : mUrlBody r = []
    · by_cases h2 : mUrlBody (c :: r) = []
      · rw [tryUrlAt_none h1 h2] at h
        exact absurd h (by simp)
      · exact mUrlBody_dot h2
    · exact List.mem_cons_of_mem c (mUrlBody_dot h1)

theorem scanUrls_cons_eq (f i : Nat) (c : Nat) (r : List Nat) :
    scanUrls (f + 1) i (c :: r) =
      (match tryUrlAt (i == 0) (c :: r) with
      | some (p, u) =>
        ⟨u, i + p, i + p + u.length⟩ ::
          scanUrls f (i + p + u.length) ((c :: r).drop (p + u.length))
      | none => scanUrls f (i + 1) r) := rfl

theorem scanUrls_no_dot (f i : Nat) (l : List Nat) (h : 46 ∉ l) :
    scanUrls f i l = [] := by
  induction f generalizing i l with
  | zero => rfl
  | succ n ih =>
    cases l with
    | nil => rfl
    | cons c r =>
      rw [scanUrls_cons_eq]
      cases ht : tryUrlAt (i == 0) (c :: r) with
      | some x => exact absurd (tryUrlAt_dot ht) h
      | none => exact ih (i + 1) r (fun hm => h (List.mem_cons_of_mem c hm))

theorem extract_urls_no_dot {t : List Nat} (h : 46 ∉ t) :
    extract_urls_with_indices t = [] :=
  scanUrls_no_dot t.length 0 t h

/- ----------------------------------------------------------------
   Helper lemmas: span accounting of the URL scan
   ---------------------------------------------------------------- -/

theorem tryUrlAt_le {b : Bool} {l : List Nat} {p : Nat} {u : List Nat}
    (h : tryUrlAt b l = some (p, u)) : p + u.length ≤ l.length := by
  cases l with
  | nil =>
    rw [tryUrlAt_nil] at h
    exact absurd h (by simp)
  | cons c r =>
    rw [tryUrlAt_cons] at h
    cases hcl : (if isUrlPrecedingOk c then
        (mUrlBody r).head?.map (fun rem => (1, r.take (r.length - rem.length)))
      else none) with
    | some x =>
      rw [hcl] at h
      simp only [Option.some_inj] at h
      subst h
      by_cases hp : isUrlPrecedingOk c
      · rw [if_pos hp] at hcl
        rw [Option.map_eq_some'] at hcl
        obtain ⟨rem, _, hfx⟩ := hcl
        injection hfx with h1 h2
        subst h1
        subst h2
        rw [List.length_take]
        simp only [List.length_cons]
        omega
      · rw [if_neg hp] at hcl
        exact absurd hcl (by simp)
    | none =>
      rw [hcl] at h
      simp only at h
      cases b with
      | false => exact absurd h (by simp)
      | true =>
        simp only [if_true] at h
        rw [Option.map_eq_some'] at h
        obtain ⟨rem, _, hfx⟩ := h
        injection hfx with h1 h2
        subst h1
        subst h2
        rw [List.length_take]
        omega

theorem scanUrls_zero (i : Nat) (l : List Nat) : scanUrls 0 i l = [] := rfl

theorem scanUrls_nil (f i : Nat) : scanUrls (f + 1) i [] = [] := rfl

theorem scanUrls_adjust (f i : Nat) (l : List Nat) :
    -(l.length : Int) ≤
      ((scanUrls f i l).map
        (fun u => (u.start : Int) - (u.stop : Int) + 23)).sum := by
  induction f generalizing i l with
  | zero =>
    rw [scanUrls_zero]
    simp
  | succ n ih =>
    cases l with
    | nil =>
      rw [scanUrls_nil]
      simp
    | cons c r =>
      rw [scanUrls_cons_eq]
      cases ht : tryUrlAt (i == 0) (c :: r) with
      | none =>
        have hr := ih (i + 1) r
        simp only [List.length_cons]
        omega
      | some x =>
        obtain ⟨p, u⟩ := x
        have hle := tryUrlAt_le ht
        have hrest := ih (i + p + u.length) ((c :: r).drop (p + u.length))
        rw [List.length_drop] at hrest
        simp only [List.map_cons, List.sum_cons]
        simp only [List.length_cons] at hle hrest ⊢
        omega

/- ----------------------------------------------------------------
   Helper lemmas: the closed form of tweet_length
   ---------------------------------------------------------------- -/

theorem foldl_adjust (g : UrlEnt → Int) (us : List UrlEnt) (s : Int) :
    us.foldl (fun acc u => acc + g u) s = s + (us.map g).sum := by
  induction us generalizing s with
  | nil => simp
  | cons u rest ih =>
    simp only [List.foldl, List.map_cons, List.sum_cons, ih]
    ring

theorem tweet_length_eq (t : List Nat) (o : TcoOptions) :
    (tweet_length t o).1 =
      ((weightedSum t / 100 : Nat) : Int) +
        urlAdjust (fillOptions o) (extract_urls_with_indices t) := by
  simp only [tweet_length, urlAdjust]
  have h := foldl_adjust
    (fun u =>
      ((u.start : Int) - (u.stop : Int)) +
        (if containsSub HTTPS_SEQ (u.url.map lowAsc) then
          (fillOptions o).short_url_length_https.getD 0
        else (fillOptions o).short_url_length.getD 0))
    (extract_urls_with_indices t) ((weightedSum t / 100 : Nat) : Int)
  simp only at h ⊢
  rw [← h]
  congr 1
  funext acc u
  ring

theorem fillOptions_idem (o : TcoOptions) :
    fillOptions (fillOptions o) = fillOptions o := by
  simp [fillOptions]

theorem urlAdjust_nil (o : TcoOptions) : urlAdjust o [] = 0 := rfl

theorem urlAdjust_default (us : List UrlEnt) :
    urlAdjust (fillOptions emptyOptions) us =
      (us.map (fun u => (u.start : Int) - (u.stop : Int) + 23)).sum := by
  simp only [urlAdjust, fillOptions, emptyOptions, Option.getD_some,
    Option.getD_none, ite_self]

/- ----------------------------------------------------------------
   Claim theorems
   ---------------------------------------------------------------- -/

/-- C1: evaluation of the code at the failing input.  The text is the
letter a followed by the single disallowed codepoint U+202E, is
non-empty and well within the length limit, yet tweet_invalid returns
none (the no-error value) rather than the InvalidCharacters reason,
because the source searches for the literal concatenation of all eight
disallowed codepoints as one substring instead of a character class;
that eight-codepoint sequence does not occur in the text. -/
theorem C1_single_invalid_char_unreported :
    tweet_invalid [97, 0x202E] = none ∧
    containsSub INVALID_CHARACTERS [97, 0x202E] = false :=
  ⟨by decide, by decide⟩

/-- C2 (amended): for every text and options, tweet_length equals the
weighted base length plus, for every URL the Extractor finds, the
negative span delta plus the replacement length, the https-specific one
being chosen exactly when the lowercased URL text contains https:// as a
substring (not only as a prefix); in particular the text
check http://example.com has tweet_length 6 + 23 = 29. -/
theorem C2_url_replacement_contains_rule :
    (∀ (t : List Nat) (o : TcoOptions),
      (tweet_length t o).1 =
        ((weightedSum t / 100 : Nat) : Int) +
          urlAdjust (fillOptions o) (extract_urls_with_indices t)) ∧
    (tweet_length [99, 104, 101, 99, 107, 32, 104, 116, 116, 112, 58, 47,
      47, 101, 120, 97, 109, 112, 108, 101, 46, 99, 111, 109] emptyOptions).1 = 29 :=
  ⟨tweet_length_eq, by decide⟩

/-- C2 counterexample: on the text http://x.com/?u=https://a - whose one
extracted URL contains https:// but does not begin with it - with
short_url_length 23 and short_url_length_https 10, the code returns 10
(the https length is selected by the substring test), whereas the rule
stated by the claim (prefix selection) would give 23. -/
theorem C2_prefix_rule_cex :
    (tweet_length [104, 116, 116, 112, 58, 47, 47, 120, 46, 99, 111, 109,
      47, 63, 117, 61, 104, 116, 116, 112, 115, 58, 47, 47, 97]
      ⟨some 23, some 10, some 0⟩).1 = 10 ∧
    tweet_length_prefix_rule [104, 116, 116, 112, 58, 47, 47, 120, 46, 99,
      111, 109, 47, 63, 117, 61, 104, 116, 116, 112, 115, 58, 47, 47, 97]
      ⟨some 23, some 10, some 0⟩ = 23 :=
  ⟨by decide, by decide⟩

set_option maxRecDepth 20000 in
/-- C3: tweet_invalid returns EmptyText on the empty string, the
no-error value on 280 ASCII letters, and TooLong on 281 ASCII letters:
the length limit is a strict greater-than comparison against 280. -/
theorem C3_length_boundaries :
    tweet_invalid [] = some TweetError.emptyText ∧
    tweet_invalid (List.replicate 280 97) = none ∧
    tweet_invalid (List.replicate 281 97) = some TweetError.tooLong :=
  ⟨by decide, by decide, by decide⟩

/-- C4 (amended): the three checks of tweet_invalid run in source order
empty, too-long, invalid-characters, each later applicable check
overwriting the recorded reason, so the LAST applicable reason wins:
whenever the invalid-characters pattern matches, the result is
InvalidCharacters (even for over-length text), and TooLong is reported
exactly when the weighted length exceeds 280 and the invalid-characters
pattern does not match. -/
theorem C4_last_check_wins (t : List Nat) :
    (containsSub INVALID_CHARACTERS t = true →
      tweet_invalid t = some TweetError.invalidCharacters) ∧
    ((tweet_length t emptyOptions).1 > 280 →
      containsSub INVALID_CHARACTERS t = false →
      tweet_invalid t = some TweetError.tooLong) := by
  constructor
  · intro h
    simp [tweet_invalid, h]
  · intro h1 h2
    simp only [tweet_invalid, h2, MAX_LENGTH]
    rw [if_neg (by simp), if_pos (by exact_mod_cast h1)]

set_option maxRecDepth 20000 in
/-- C4 witness: the amended theorem applied to 300 letters followed by
the eight-codepoint invalid sequence. -/
theorem C4_last_check_wins_witness :
    tweet_invalid (List.replicate 300 97 ++ INVALID_CHARACTERS) =
      some TweetError.invalidCharacters :=
  (C4_last_check_wins (List.replicate 300 97 ++ INVALID_CHARACTERS)).1 (by decide)

set_option maxRecDepth 20000 in
/-- C4 counterexample: 300 ASCII letters followed by the eight-codepoint
invalid sequence has weighted length 316 > 280 and matches the
invalid-characters pattern, yet tweet_invalid does not report TooLong
(it reports InvalidCharacters), contradicting the priority order the
claim states. -/
theorem C4_priority_cex :
    (tweet_length (List.replicate 300 97 ++ INVALID_CHARACTERS) emptyOptions).1 > 280 ∧
    containsSub INVALID_CHARACTERS (List.replicate 300 97 ++ INVALID_CHARACTERS) = true ∧
    tweet_invalid (List.replicate 300 97 ++ INVALID_CHARACTERS) ≠ some TweetError.tooLong :=
  ⟨by decide, by decide, by decide⟩

/-- C5: evaluation of valid_url on the three scenarios of the claim.
With a scheme, require_protocol true returns the boolean true.  Without
a scheme and require_protocol true, the code does NOT return false: the
unmatched scheme group is None and _valid_match passes it to
re_obj.match, which raises TypeError (the error value here).  Without a
scheme and require_protocol false it returns true. -/
theorem C5_valid_url_examples :
    valid_url [104, 116, 116, 112, 58, 47, 47, 101, 120, 97, 109, 112,
      108, 101, 46, 99, 111, 109, 47, 112, 97, 116, 104, 63, 113, 61, 49]
      true true = Except.ok true ∧
    valid_url [101, 120, 97, 109, 112, 108, 101, 46, 99, 111, 109, 47,
      112, 97, 116, 104, 63, 113, 61, 49] true true = Except.error () ∧
    valid_url [101, 120, 97, 109, 112, 108, 101, 46, 99, 111, 109, 47,
      112, 97, 116, 104, 63, 113, 61, 49] true false = Except.ok true :=
  ⟨by decide, by decide, by decide⟩

/-- C6 (amended): tweet_length is non-negative for every text containing
no high-surrogate code units (and in particular for every text with no
extracted URLs); when an extracted URL span contains zero-weight
high-surrogate code units, the result can be negative. -/
theorem C6_nonneg_without_surrogates (t : List Nat)
    (h : ∀ c ∈ t, ¬(0xd800 ≤ c ∧ c ≤ 0xdbff)) :
    0 ≤ (tweet_length t emptyOptions).1 := by
  rw [tweet_length_eq, urlAdjust_default]
  have h1 := scanUrls_adjust t.length 0 t
  have h2 := length_le_base h
  have h3 : (t.length : Int) ≤ ((weightedSum t / 100 : Nat) : Int) := by
    exact_mod_cast h2
  have h4 : extract_urls_with_indices t = scanUrls t.length 0 t := rfl
  rw [h4]
  omega

/-- C6 witness: the theorem applied to the two-letter text hi. -/
theorem C6_nonneg_witness : 0 ≤ (tweet_length [104, 105] emptyOptions).1 :=
  C6_nonneg_without_surrogates [104, 105] (by decide)

/-- C6 counterexample: the text http:// followed by 30 high surrogates
and .com is extracted as one URL of span 41 whose surrogates weigh 0, so
tweet_length returns 11 - 41 + 23 = -7, a negative integer. -/
theorem C6_negative_cex :
    (tweet_length ([104, 116, 116, 112, 58, 47, 47] ++
      List.replicate 30 0xd800 ++ [46, 99, 111, 109]) emptyOptions).1 = -7 := by
  decide

/-- C7: valid_hashtag is true exactly when hashtag extraction yields
exactly one hashtag whose body equals the whole input minus its leading
marker character; #foo is valid, #123 is not (a digits-only body matches
no hashtag since the grammar demands an alphabetic character), and
the text #foo bar is not (the hashtag does not span the full text). -/
theorem C7_valid_hashtag_iff :
    (∀ t : List Nat, valid_hashtag t = true ↔ extract_hashtags t = [t.drop 1]) ∧
    valid_hashtag [35, 102, 111, 111] = true ∧
    valid_hashtag [35, 49, 50, 51] = false ∧
    valid_hashtag [35, 102, 111, 111, 32, 98, 97, 114] = false := by
  refine ⟨?_, by decide, by decide, by decide⟩
  intro t
  simp only [valid_hashtag]
  by_cases ht : t.isEmpty
  · rw [if_pos ht]
    have hT : t = [] := by simpa using ht
    subst hT
    rw [show extract_hashtags [] = [] from rfl]
    simp
  · rw [if_neg ht]
    cases hex : extract_hashtags t with
    | nil => simp
    | cons x xs =>
      cases xs with
      | nil => simp [beq_iff_eq]
      | cons y ys => simp

/-- C8 (amended): tweet_length writes the default value of each missing
recognized key into the caller-supplied options dictionary (a mutation
of its input), but it is idempotent: a second call on the dictionary
state left by the first returns the same length and leaves the
dictionary unchanged, and for a text with no extracted URLs the result
is exactly the weighted sum integer-divided by 100. -/
theorem C8_idempotent_and_no_url_value (t : List Nat) (o : TcoOptions) :
    ((tweet_length t (tweet_length t o).2).1 = (tweet_length t o).1 ∧
      (tweet_length t (tweet_length t o).2).2 = (tweet_length t o).2) ∧
    (extract_urls_with_indices t = [] →
      (tweet_length t o).1 = ((weightedSum t / 100 : Nat) : Int)) := by
  have hsnd : ∀ o2 : TcoOptions, (tweet_length t o2).2 = fillOptions o2 := fun _ => rfl
  refine ⟨⟨?_, ?_⟩, ?_⟩
  · rw [tweet_length_eq, tweet_length_eq, hsnd, fillOptions_idem]
  · rw [hsnd, hsnd, fillOptions_idem]
  · intro hex
    rw [tweet_length_eq, hex, urlAdjust_nil]
    ring

/-- C8 witness: the theorem applied to the three-letter text hey, whose
URL extraction is empty, with an initially empty options dictionary. -/
theorem C8_idempotent_witness :
    (tweet_length [104, 101, 121]
        (tweet_length [104, 101, 121] emptyOptions).2).1 =
      (tweet_length [104, 101, 121] emptyOptions).1 ∧
    (tweet_length [104, 101, 121] emptyOptions).1 =
      ((weightedSum [104, 101, 121] / 100 : Nat) : Int) :=
  ⟨(C8_idempotent_and_no_url_value [104, 101, 121] emptyOptions).1.1,
   (C8_idempotent_and_no_url_value [104, 101, 121] emptyOptions).2 (by decide)⟩

/-- C8 counterexample: tweet_length does modify the caller-supplied
options dictionary: called with no recognized key present, it leaves the
dictionary with all three defaults filled in, a state different from the
one the caller passed. -/
theorem C8_options_mutation_cex :
    (tweet_length [] emptyOptions).2 ≠ emptyOptions := by
  decide

/-- C9: in the per-codepoint weighting of tweet_length, every high
surrogate 0xD800-0xDBFF gets weight 0, while every low surrogate
0xDC00-0xDFFF matches no weight-table range and gets the default weight
200. -/
theorem C9_surrogate_weights (c : Nat) :
    (0xd800 ≤ c → c ≤ 0xdbff → charWeight c = 0) ∧
    (0xdc00 ≤ c → c ≤ 0xdfff → charWeight c = 200) := by
  constructor
  · intro h1 h2
    simp [charWeight, h1, h2]
  · intro h1 h2
    have hns : ¬(0xd800 ≤ c ∧ c ≤ 0xdbff) := by omega
    simp only [charWeight, weightRanges, List.foldl, if_neg hns]
    rw [if_neg (by omega), if_neg (by omega), if_neg (by omega), if_neg (by omega)]

/-- C9 witness: the theorem applied at the first high surrogate and the
first low surrogate. -/
theorem C9_surrogate_weights_witness :
    charWeight 0xd800 = 0 ∧ charWeight 0xdc00 = 200 :=
  ⟨(C9_surrogate_weights 0xd800).1 (by norm_num) (by norm_num),
   (C9_surrogate_weights 0xdc00).2 (by norm_num) (by norm_num)⟩

/-- C10: for every non-empty text whose per-codepoint weighted sum is 0
(hence every code unit is a high surrogate), tweet_invalid reports
EmptyText even though the text is not empty: the emptiness check is on
the computed length, not on the raw text. -/
theorem C10_zero_weight_empty_text (t : List Nat) (_hne : t ≠ [])
    (h0 : weightedSum t = 0) : tweet_invalid t = some TweetError.emptyText := by
  have hsur : ∀ c ∈ t, 0xd800 ≤ c ∧ c ≤ 0xdbff := fun c hc =>
    charWeight_eq_zero c (weightedSum_zero_mem h0 c hc)
  have hdot : 46 ∉ t := fun hm => by
    have := (hsur 46 hm).1
    omega
  have hex : extract_urls_with_indices t = [] := extract_urls_no_dot hdot
  have hlen : (tweet_length t emptyOptions).1 = 0 := by
    rw [tweet_length_eq, hex, urlAdjust_nil, h0]
    simp
  have hseq : containsSub INVALID_CHARACTERS t = false := by
    by_contra hc
    have hc2 : containsSub INVALID_CHARACTERS t = true := by
      revert hc
      cases containsSub INVALID_CHARACTERS t <;> simp
    have hmem : (0xFFFE : Nat) ∈ t := containsSub_mem_head hc2
    have := (hsur 0xFFFE hmem).2
    omega
  simp [tweet_invalid, hlen, hseq, MAX_LENGTH]

/-- C10 witness: the theorem applied to the one-element text consisting
of the high surrogate 0xD800. -/
theorem C10_zero_weight_empty_text_witness :
    tweet_invalid [0xd800] = some TweetError.emptyText :=
  C10_zero_weight_empty_text [0xd800] (by simp) (by decide)
